import Mathlib

/-!
Shallow embedding of the xrptip-backend payment reconciliation and
redistribution engine.

Numbers: JavaScript numeric amounts are modelled as rationals (ℚ); the
amounts the engine manipulates (XRP values with a few decimal places) are
exactly representable, and `Math.round` is modelled as `⌊q + 1/2⌋`
(JavaScript rounds halves toward positive infinity).
-/

namespace XrpTip

/-- JavaScript `Math.round`: round half toward positive infinity. -/
def jsRound (q : ℚ) : ℤ := ⌊q + 1/2⌋

/-- `Math.round(q * 100) / 100`, the two-decimal rounding used by
`calculateBackendFees` in `src/config/platformWallet.js`. -/
def roundTo2 (q : ℚ) : ℚ := (jsRound (q * 100) : ℚ) / 100

/-- Fee configuration, from `PLATFORM_WALLET_CONFIG.fees` in
`src/config/platformWallet.js`. -/
structure FeesConfig where
  percentage : ℚ
  minAmountForFees : ℚ
  minFee : ℚ
  maxFee : Option ℚ
deriving Repr, DecidableEq

/-- `PLATFORM_WALLET_CONFIG.fees`: 5% rate, 1 XRP threshold, 0.1 XRP
minimum fee, no maximum fee. -/
def feesConfig : FeesConfig :=
  { percentage := 1/20, minAmountForFees := 1, minFee := 1/10, maxFee := none }

/-- `PLATFORM_WALLET_CONFIG.minReserve`: 10 XRP. -/
def minReserve : ℚ := 10

/-- Return value of `calculateBackendFees`. -/
structure FeeSplit where
  creatorAmount : ℚ
  platformFee : ℚ
deriving Repr, DecidableEq

/-- `calculateBackendFees` from `src/config/platformWallet.js` (lines
28-63): below the threshold no fee is taken; otherwise the creator amount
is `total / (1 + percentage)`, the fee is clamped to `minFee` (and to
`maxFee` when configured), and both outputs are independently rounded to
two decimals. -/
def calculateBackendFees (totalAmount : ℚ) : FeeSplit :=
  if totalAmount < feesConfig.minAmountForFees then
    { creatorAmount := totalAmount, platformFee := 0 }
  else
    let creatorAmount := totalAmount / (1 + feesConfig.percentage)
    let platformFee0 := totalAmount - creatorAmount
    let platformFee1 :=
      if platformFee0 < feesConfig.minFee ∧ feesConfig.minAmountForFees ≤ totalAmount then
        feesConfig.minFee
      else platformFee0
    let platformFee2 :=
      match feesConfig.maxFee with
      | some m => if m < platformFee1 then m else platformFee1
      | none => platformFee1
    { creatorAmount := roundTo2 (totalAmount - platformFee2),
      platformFee := roundTo2 platformFee2 }

/-! ### Data model -/

/-- Tip status enum, from `src/models/Tip.js` (`status` enum
`pending`/`confirmed`/`failed`). -/
inductive TipStatus where
  | pending
  | confirmed
  | failed
deriving Repr, DecidableEq

/-- Wallet classification enum, from `src/models/Creator.js`
(`walletType` enum `personal`/`exchange`). -/
inductive WalletType where
  | personal
  | exchange
deriving Repr, DecidableEq

/-- Aggregate counters, from `src/models/Creator.js` (`stats`). -/
structure Stats where
  totalTips : ℕ
  totalAmount : ℚ
  uniqueSupporters : ℕ
deriving Repr, DecidableEq

/-- One `walletHistory` entry, from `src/models/Creator.js`. Timestamps
are abstract ticks (ℕ). -/
structure WalletEntry where
  xrpAddress : String
  walletType : WalletType
  destinationTag : Option ℕ
  userDestinationTag : Option ℕ
  activeFrom : ℕ
  activeTo : Option ℕ
deriving Repr, DecidableEq

/-- A beneficiary account, from `src/models/Creator.js`. Fields not used
by the reconciliation engine (bio, links, theme, ...) are omitted.
`id` stands for the Mongo `_id`. -/
structure Creator where
  id : ℕ
  username : String
  xrpAddress : String
  walletType : WalletType
  destinationTag : Option ℕ
  userDestinationTag : Option ℕ
  walletHistory : List WalletEntry
  stats : Stats
  updatedAt : ℕ
deriving Repr, DecidableEq

/-- A tip document, from `src/models/Tip.js`. `creator` is the (nullable
in the service code, but `required` in the schema) beneficiary reference;
`id` stands for the Mongo `_id`. -/
structure Tip where
  id : ℕ
  creator : Option ℕ
  creatorUsername : String
  amount : ℚ
  senderAddress : String
  destinationTag : Option ℕ
  status : TipStatus
  transactionHash : Option String
  ledgerIndex : Option ℤ
  confirmedAt : Option ℤ
  redistributed : Bool
  redistributionTxHash : Option String
  platformFee : ℚ
  creatorAmount : Option ℚ
  totalAmount : Option ℚ
deriving Repr, DecidableEq

/-- The payment object built by `XRPLClient.subscribeToPayments` in
`src/services/xrplClient.js` (lines 240-248) and handed to the Payment
Observer callback. Note it carries a lowercase `destinationTag` property
only. -/
structure Payment where
  hash : String
  from_ : String
  to_ : String
  amount : ℚ
  ledgerIndex : ℤ
  destinationTag : Option ℕ
deriving Repr, DecidableEq

/-- A raw validated ledger transaction as the XRPL client returns it
(`tx_json` fields, capitalized). `metaResult` is
`meta.TransactionResult`; `DeliverMax` may be absent. Amounts are in
drops. -/
structure RawTx where
  TransactionType : String
  metaResult : Option String
  Destination : String
  Account : String
  Amount : ℚ
  DeliverMax : Option ℚ
  DestinationTag : Option ℕ
  hash : String
  date : ℤ
  ledger_index : ℤ
  Fee : ℚ
deriving Repr, DecidableEq

/-- One entry of an `account_tx` page, from
`XRPLClient.getAccountTransactions`: an optional `tx`/`tx_json` body
plus envelope fields. -/
structure TxData where
  tx : Option RawTx
  hash : String
  ledger_index : ℤ
deriving Repr, DecidableEq

/-! ### Creator methods (`src/models/Creator.js`) -/

/-- `creatorSchema.methods.getCurrentDestinationTag`: the current tag is
`userDestinationTag` for exchange wallets, else `destinationTag`. -/
def getCurrentDestinationTag (c : Creator) : Option ℕ :=
  match c.walletType with
  | .exchange => c.userDestinationTag
  | .personal => c.destinationTag

/-- The tag an individual wallet-history entry contributes, mirroring the
`forEach` body of `getAllValidDestinationTags`. -/
def historicalTag (w : WalletEntry) : Option ℕ :=
  match w.walletType with
  | .exchange => w.userDestinationTag
  | .personal => w.destinationTag

/-- The `forEach` body of `getAllValidDestinationTags`: push a history
entry's tag unless it is already collected. -/
def pushTag (acc : List ℕ) (w : WalletEntry) : List ℕ :=
  match historicalTag w with
  | some t => if t ∈ acc then acc else acc ++ [t]
  | none => acc

/-- `creatorSchema.methods.getAllValidDestinationTags` (lines 190-216):
start from the current tag, then append each history entry's tag unless
already present. -/
def getAllValidDestinationTags (c : Creator) : List ℕ :=
  let tags : List ℕ :=
    match getCurrentDestinationTag c with
    | some t => [t]
    | none => []
  c.walletHistory.foldl pushTag tags

/-- The wallet-change branch of the `creatorSchema.pre('save')` hook
(lines 234-262): when address/type/user tag change on an existing
document, every still-open history entry is closed and the old persisted
assignment is pushed onto `walletHistory`, stamped with the old
`updatedAt` and the present time. -/
def applyWalletChange (old : Creator) (newAddress : String) (newType : WalletType)
    (newDestinationTag newUserDestinationTag : Option ℕ) (now : ℕ) : Creator :=
  let closed := old.walletHistory.map
    (fun w => if w.activeTo = none then { w with activeTo := some now } else w)
  { old with
    xrpAddress := newAddress
    walletType := newType
    destinationTag := newDestinationTag
    userDestinationTag := newUserDestinationTag
    walletHistory := closed ++
      [{ xrpAddress := old.xrpAddress
         walletType := old.walletType
         destinationTag := old.destinationTag
         userDestinationTag := old.userDestinationTag
         activeFrom := old.updatedAt
         activeTo := some now }] }

/-! ### Tag resolution (`src/services/xrplService.js` lines 186-217) -/

/-- Does a creator's *current* assignment match the tag? Mirrors the
first `Creator.findOne` `$or` query of `findCreatorByDestinationTag`. -/
def currentTagMatches (tag : ℕ) (c : Creator) : Bool :=
  (decide (c.destinationTag = some tag) && decide (c.walletType = .personal)) ||
  (decide (c.userDestinationTag = some tag) && decide (c.walletType = .exchange))

/-- Does some `walletHistory` entry match the tag? Mirrors the
`$elemMatch` query of `findCreatorByDestinationTag`. -/
def historyTagMatches (tag : ℕ) (c : Creator) : Bool :=
  c.walletHistory.any (fun w =>
    (decide (w.destinationTag = some tag) && decide (w.walletType = .personal)) ||
    (decide (w.userDestinationTag = some tag) && decide (w.walletType = .exchange)))

/-- `XRPLService.findCreatorByDestinationTag`: search current
assignments first, then wallet histories. `creators` is the persisted
account directory in insertion order (`findOne` returns the first
match). -/
def findCreatorByDestinationTag (creators : List Creator) (tag : ℕ) : Option Creator :=
  match creators.find? (currentTagMatches tag) with
  | some c => some c
  | none => creators.find? (historyTagMatches tag)

/-! ### Tip persistence (`src/models/Tip.js`) -/

/-- XRPL base58 alphabet check for the `senderAddress` validator regex
`^r[1-9A-HJ-NP-Za-km-z]{24,34}$`. -/
def isXrpAddressChar (c : Char) : Bool :=
  ("123456789ABCDEFGHJKLMNPQRSTUVWXYZabcdefghijkmnopqrstuvwxyz".toList).contains c

/-- The `senderAddress` validator regex of `tipSchema`. -/
def isValidXrpAddressFormat (s : String) : Bool :=
  match s.toList with
  | [] => false
  | c :: rest =>
      c = 'r' && decide (24 ≤ rest.length) && decide (rest.length ≤ 34) &&
      rest.all isXrpAddressChar

/-- Mongoose document validation for `tipSchema`: `creator` and
`creatorUsername` are `required` (a null reference and an empty string
both fail), `amount` must be at least 0.000001 XRP, `senderAddress` must
match the XRP address regex when non-empty, and the money fields must be
non-negative. -/
def validTip (t : Tip) : Bool :=
  t.creator.isSome &&
  (t.creatorUsername != "") &&
  decide ((1/1000000 : ℚ) ≤ t.amount) &&
  (t.senderAddress == "" || isValidXrpAddressFormat t.senderAddress) &&
  decide ((0 : ℚ) ≤ t.platformFee) &&
  (match t.creatorAmount with
   | some a => decide ((0 : ℚ) ≤ a)
   | none => true) &&
  (match t.totalAmount with
   | some a => decide ((0 : ℚ) ≤ a)
   | none => true)

/-- Outcome of a rejected `save()`. -/
inductive SaveError where
  | validationError
  | duplicateKey
deriving Repr, DecidableEq

/-- `tip.save()`: mongoose validation first, then the unique sparse index
on `transactionHash` (`tipSchema.index({transactionHash: 1}, {unique:
true, sparse: true})`): inserting a document whose hash collides with a
stored one is rejected. -/
def saveTip (db : List Tip) (t : Tip) : Except SaveError (List Tip) :=
  if validTip t then
    match t.transactionHash with
    | some h =>
        if db.any (fun u => decide (u.transactionHash = some h)) then
          .error .duplicateKey
        else
          .ok (db ++ [t])
    | none => .ok (db ++ [t])
  else
    .error .validationError

/-- Replace the first stored tip matching `p` by `f` of it (a mongoose
document mutation followed by `save()` on an already-stored document). -/
def updateFirstTip (db : List Tip) (p : Tip → Bool) (f : Tip → Tip) : List Tip :=
  match db with
  | [] => []
  | t :: rest => if p t then f t :: rest else t :: updateFirstTip rest p f

/-- The post-redistribution tip mutation of the Payment Observer (lines
147-149): `tip.redistributed = true; tip.redistributionTxHash = ...`. -/
def markRedistributed (txh : String) (t : Tip) : Tip :=
  { t with redistributed := true, redistributionTxHash := some txh }

/-- `tip.status = 'failed'; await tip.save()` in `verifyAndConfirmTip`. -/
def markFailed (t : Tip) : Tip :=
  { t with status := .failed }

/-! ### Aggregate statistics -/

/-- The `Tip.find({creator, destinationTag: {$in: validTags}, status:
'confirmed'})` filter used by every stats refresh in
`src/services/xrplService.js`. -/
def tipCountsForStats (c : Creator) (t : Tip) : Bool :=
  decide (t.creator = some c.id) &&
  (match t.destinationTag with
   | some v => (getAllValidDestinationTags c).contains v
   | none => false) &&
  decide (t.status = .confirmed)

/-- The tips a stats refresh ranges over. -/
def tipsForStats (db : List Tip) (c : Creator) : List Tip :=
  db.filter (tipCountsForStats c)

/-- One stats refresh: `totalTips = allTips.length`, `totalAmount =
allTips.reduce((sum, t) => sum + t.amount, 0)`, `uniqueSupporters =
[...new Set(allTips.map(t => t.senderAddress))].length`. -/
def recomputeStats (db : List Tip) (c : Creator) : Stats :=
  let allTips := tipsForStats db c
  { totalTips := allTips.length
    totalAmount := allTips.foldl (fun sum t => sum + t.amount) 0
    uniqueSupporters := (allTips.map (fun t => t.senderAddress)).dedup.length }

/-- Store the recomputed stats on the creator document (the
`creator.save()` after a stats refresh), replacing it in the
directory. -/
def updateCreatorStats (creators : List Creator) (cid : ℕ) (s : Stats) : List Creator :=
  creators.map (fun c => if c.id = cid then { c with stats := s } else c)

/-! ### Redistribution executor (`src/services/redistributionService.js`) -/

/-- The `transaction` argument of `redistributeTip` as a JavaScript
object: property reads of both the lowercase `destinationTag` (used for
logging and the memo) and the capitalized `DestinationTag` (used for the
outbound payment) must be modelled, since either may be absent
(`undefined`, here `none`). -/
structure RedistTxArg where
  destinationTag : Option ℕ
  DestinationTag : Option ℕ
deriving Repr, DecidableEq

/-- Reading the `redistributeTip` transaction argument off the Payment
Observer's payment object: that object defines only the lowercase
`destinationTag` property, so the capitalized `DestinationTag` read
yields `undefined`. -/
def paymentToTxArg (p : Payment) : RedistTxArg :=
  { destinationTag := p.destinationTag, DestinationTag := none }

/-- Reading the `redistributeTip` transaction argument off a raw ledger
transaction (the `processIncomingTransaction` path), which carries the
capitalized field and no lowercase one. -/
def rawTxToTxArg (tx : RawTx) : RedistTxArg :=
  { destinationTag := none, DestinationTag := tx.DestinationTag }

/-- The outbound XRPL payment constructed by `redistributeTip` (lines
112-124). `Amount` is in drops (`xrpl.xrpToDrops`); `DestinationTag` is
`transaction.DestinationTag || undefined` (so an absent or zero tag
yields no tag field); the memo references the original tag. -/
structure OutboundPayment where
  Account : String
  Destination : String
  Amount : ℤ
  DestinationTag : Option ℕ
  MemoData : String
deriving Repr, DecidableEq

/-- `transaction.DestinationTag || undefined`: JavaScript `||` treats an
absent tag and the (valid) tag 0 alike, both yield `undefined`. -/
def jsOrUndefined (v : Option ℕ) : Option ℕ :=
  match v with
  | some n => if n = 0 then none else some n
  | none => none

/-- Build the outbound payment of `redistributeTip` (lines 112-124). -/
def buildOutboundPayment (platformAddress : String) (transaction : RedistTxArg)
    (creatorAddress : String) (creatorAmount : ℚ) : OutboundPayment :=
  { Account := platformAddress
    Destination := creatorAddress
    Amount := ⌊creatorAmount * 1000000⌋
    DestinationTag := jsOrUndefined transaction.DestinationTag
    MemoData := "xrpTip redistribution - Original tag: " ++
      (match transaction.destinationTag with
       | some t => toString t
       | none => "none") }

/-- Errors thrown by `redistributeTip`. -/
inductive RedistError where
  | notInitialized
  | insufficientReserve
  | transactionRejected
deriving Repr, DecidableEq

/-- Successful `redistributeTip` return value. -/
structure RedistSuccess where
  txHash : String
  creatorAmount : ℚ
  platformFee : ℚ
  ledgerIndex : ℤ
deriving Repr, DecidableEq

/-- The environment `redistributeTip` consumes: whether `initialize`
succeeded, the operating account's validated balance in drops
(`account_info` response), and the ledger's response to
`submitAndWait`. -/
structure RedistEnv where
  initialized : Bool
  platformAddress : String
  balanceDrops : ℤ
  submitSucceeds : Bool
  submitHash : String
  submitLedgerIndex : ℤ
deriving Repr, DecidableEq

/-- What one `redistributeTip` call did: the outbound payment it
submitted, if any, and its result. -/
structure RedistOutcome where
  submitted : Option OutboundPayment
  result : Except RedistError RedistSuccess
deriving Repr

/-- `RedistributionService.redistributeTip` (lines 80-153): compute the
fee split, query the validated balance, refuse with the reserve error
when `balance - (creatorAmount + 0.000012) < minReserve` (submitting
nothing in that case), otherwise build, submit and confirm the outbound
transfer, failing when the ledger reports non-success. -/
def redistributeTip (env : RedistEnv) (transaction : RedistTxArg)
    (creatorAddress : String) (totalAmount : ℚ) : RedistOutcome :=
  if ¬env.initialized then
    { submitted := none, result := .error .notInitialized }
  else
    let split := calculateBackendFees totalAmount
    let availableBalance : ℚ := (env.balanceDrops : ℚ) / 1000000
    let requiredAmount : ℚ := split.creatorAmount + 12/1000000
    let afterBalance : ℚ := availableBalance - requiredAmount
    if afterBalance < minReserve then
      { submitted := none, result := .error .insufficientReserve }
    else
      let payment := buildOutboundPayment env.platformAddress transaction
        creatorAddress split.creatorAmount
      if env.submitSucceeds then
        { submitted := some payment
          result := .ok
            { txHash := env.submitHash
              creatorAmount := split.creatorAmount
              platformFee := split.platformFee
              ledgerIndex := env.submitLedgerIndex } }
      else
        { submitted := some payment, result := .error .transactionRejected }

/-! ### Payment Observer (`src/services/xrplService.js` lines 49-173) -/

/-- How one live payment delivery ended. -/
inductive ObserveOutcome where
  /-- An unattributed tip (no or unresolvable tag) was persisted. -/
  | unattributedSaved
  /-- A tip for this transaction hash already exists; stopped at the
  idempotency check. -/
  | duplicate
  /-- Tip persisted and the redistribution succeeded; tip marked
  redistributed and stats refreshed. -/
  | recordedAndRedistributed
  /-- Tip persisted but redistribution threw; the error is logged and the
  tip left as-is. -/
  | recordedNotRedistributed
  /-- A thrown error (e.g. a rejected `save()`) reached the outer catch;
  nothing was persisted. -/
  | processingError
deriving Repr, DecidableEq

/-- How many times a delivery invoked the Redistribution Executor. -/
def redistInvocations : ObserveOutcome → ℕ
  | .recordedAndRedistributed => 1
  | .recordedNotRedistributed => 1
  | _ => 0

/-- The unattributed tip document the observer constructs (lines 61-75
and 86-100): null creator, username "unknown", full amount, no fee. -/
def unassignedTip (newId : ℕ) (p : Payment) (tag : Option ℕ) (now : ℤ) : Tip :=
  { id := newId
    creator := none
    creatorUsername := "unknown"
    amount := p.amount
    senderAddress := p.from_
    destinationTag := tag
    status := .confirmed
    transactionHash := some p.hash
    ledgerIndex := some p.ledgerIndex
    confirmedAt := some now
    redistributed := false
    redistributionTxHash := none
    platformFee := 0
    creatorAmount := some 0
    totalAmount := some p.amount }

/-- The attributed tip document the observer constructs (lines 118-132)
from the fee split. -/
def attributedTip (newId : ℕ) (p : Payment) (tag : ℕ) (c : Creator)
    (split : FeeSplit) (now : ℤ) : Tip :=
  { id := newId
    creator := some c.id
    creatorUsername := c.username
    amount := split.creatorAmount
    senderAddress := p.from_
    destinationTag := some tag
    status := .confirmed
    transactionHash := some p.hash
    ledgerIndex := some p.ledgerIndex
    confirmedAt := some now
    redistributed := false
    redistributionTxHash := none
    platformFee := split.platformFee
    creatorAmount := some split.creatorAmount
    totalAmount := some p.amount }

/-- The Payment Observer callback of `XRPLService.monitorPlatformWallet`
(lines 51-172) on one delivered payment: extract the tag, resolve the
beneficiary, run the idempotency check, persist a confirmed tip, attempt
redistribution, and on success mark the tip redistributed and refresh the
beneficiary's stats. Thrown errors are caught and leave state
unchanged. -/
def monitorHandler (creators : List Creator) (env : RedistEnv) (now : ℤ) (newId : ℕ)
    (db : List Tip) (p : Payment) : List Tip × List Creator × ObserveOutcome :=
  match p.destinationTag with
  | none =>
      match saveTip db (unassignedTip newId p none now) with
      | .ok db' => (db', creators, .unattributedSaved)
      | .error _ => (db, creators, .processingError)
  | some tag =>
      match findCreatorByDestinationTag creators tag with
      | none =>
          match saveTip db (unassignedTip newId p (some tag) now) with
          | .ok db' => (db', creators, .unattributedSaved)
          | .error _ => (db, creators, .processingError)
      | some creator =>
          if db.any (fun u => decide (u.transactionHash = some p.hash)) then
            (db, creators, .duplicate)
          else
            let split := calculateBackendFees p.amount
            match saveTip db (attributedTip newId p tag creator split now) with
            | .error _ => (db, creators, .processingError)
            | .ok db' =>
                let r := redistributeTip env (paymentToTxArg p) creator.xrpAddress p.amount
                match r.result with
                | .error _ => (db', creators, .recordedNotRedistributed)
                | .ok rs =>
                    let db'' := updateFirstTip db'
                      (fun t => decide (t.transactionHash = some p.hash))
                      (markRedistributed rs.txHash)
                    let stats := recomputeStats db'' creator
                    (db'', updateCreatorStats creators creator.id stats,
                      .recordedAndRedistributed)

/-- The live-subscription payment normalization of
`XRPLClient.subscribeToPayments` (lines 237-248): `amount` prefers
`DeliverMax` (JavaScript `||`, so a zero `DeliverMax` falls back to
`Amount`), and `destinationTag` is `tx.DestinationTag || null`, which
collapses a zero tag to null. -/
def mkPaymentFromTx (data : TxData) (tx : RawTx) : Payment :=
  let amountDrops : ℚ :=
    match tx.DeliverMax with
    | some d => if d = 0 then tx.Amount else d
    | none => tx.Amount
  { hash := data.hash
    from_ := tx.Account
    to_ := tx.Destination
    amount := amountDrops / 1000000
    ledgerIndex := data.ledger_index
    destinationTag :=
      match tx.DestinationTag with
      | some t => if t = 0 then none else some t
      | none => none }

/-! ### Transaction verification (`src/services/xrplClient.js` lines
109-173, `src/services/xrplService.js` lines 222-307) -/

/-- The transaction payload `verifyPayment` returns on success. -/
structure VerifiedTx where
  hash : String
  from_ : String
  to_ : String
  amount : ℚ
  destinationTag : Option ℕ
  ledgerIndex : ℤ
  date : ℤ
  fee : ℚ
deriving Repr, DecidableEq

/-- Result of `XRPLClient.verifyPayment`. -/
inductive VerifyResult where
  | invalid (reason : String)
  | valid (transaction : VerifiedTx)
deriving Repr, DecidableEq

/-- `XRPLClient.verifyPayment` (lines 109-173): fetch the transaction
(`getTx` is the ledger lookup; a lookup failure is caught and reported
as invalid), then check type, meta result, destination, and amount within
a 0.000001 XRP tolerance. -/
def verifyPayment (getTx : String → Option RawTx) (txHash expectedDestination : String)
    (expectedAmount : Option ℚ) : VerifyResult :=
  match getTx txHash with
  | none => .invalid "Error verifying transaction"
  | some tx =>
      if tx.TransactionType ≠ "Payment" then .invalid "Not a payment transaction"
      else if tx.metaResult ≠ some "tesSUCCESS" then .invalid "Transaction failed"
      else if tx.Destination ≠ expectedDestination then .invalid "Wrong destination address"
      else
        let amountInXRP : ℚ := tx.Amount / 1000000
        let ok : VerifyResult := .valid
          { hash := tx.hash
            from_ := tx.Account
            to_ := tx.Destination
            amount := amountInXRP
            destinationTag := tx.DestinationTag
            ledgerIndex := tx.ledger_index
            date := tx.date
            fee := tx.Fee / 1000000 }
        match expectedAmount with
        | some e => if (1/1000000 : ℚ) < |amountInXRP - e| then .invalid "Wrong amount" else ok
        | none => ok

/-- `Tip.findById`. -/
def findTipById (db : List Tip) (tipId : ℕ) : Option Tip :=
  db.find? (fun t => decide (t.id = tipId))

/-- `Creator.findById`. -/
def findCreatorById (creators : List Creator) (cid : ℕ) : Option Creator :=
  creators.find? (fun c => decide (c.id = cid))

/-- `tip.confirm(hash, ledgerIndex)` followed by recording the observed
destination tag (`verifyAndConfirmTip` lines 277-284). -/
def confirmMarkTip (vtx : VerifiedTx) (now : ℤ) (t : Tip) : Tip :=
  { t with
    status := .confirmed
    transactionHash := some vtx.hash
    ledgerIndex := some vtx.ledgerIndex
    confirmedAt := some now
    destinationTag := vtx.destinationTag }

/-- The result object `verifyAndConfirmTip` resolves with. -/
structure ConfirmResult where
  success : Bool
  message : String
deriving Repr, DecidableEq

/-- The destination-tag rejection of `verifyAndConfirmTip` (line 265):
`txDestinationTag && !validDestinationTags.includes(txDestinationTag)` —
JavaScript truthiness, so an absent tag or the tag 0 skips the check. -/
def tagCheckFails (tag : Option ℕ) (validDestinationTags : List ℕ) : Bool :=
  match tag with
  | some v => decide (v ≠ 0) && !(validDestinationTags.contains v)
  | none => false

/-- `XRPLService.verifyAndConfirmTip` (lines 222-307): look up the tip;
an already-confirmed tip returns "Tip already confirmed" untouched;
otherwise verify the claimed transaction on the ledger against the
beneficiary's address and the tip amount, mark the tip `failed` on a
verification or tag mismatch, and otherwise confirm it, record the
observed tag and refresh the beneficiary's stats. Thrown errors are the
`Except.error` cases. -/
def verifyAndConfirmTip (getTx : String → Option RawTx) (creators : List Creator)
    (db : List Tip) (tipId : ℕ) (txHash : String) (now : ℤ) :
    Except String (List Tip × List Creator × ConfirmResult) :=
  match findTipById db tipId with
  | none => .error "Tip not found"
  | some tip =>
      if tip.status = .confirmed then
        .ok (db, creators, { success := false, message := "Tip already confirmed" })
      else
        match tip.creator.bind (findCreatorById creators) with
        | none => .error "Creator not found"
        | some creator =>
            let validDestinationTags := getAllValidDestinationTags creator
            match verifyPayment getTx txHash creator.xrpAddress (some tip.amount) with
            | .invalid reason =>
                let db' := updateFirstTip db (fun t => decide (t.id = tipId)) markFailed
                .ok (db', creators, { success := false, message := reason })
            | .valid vtx =>
                if tagCheckFails vtx.destinationTag validDestinationTags then
                  let db' := updateFirstTip db (fun t => decide (t.id = tipId)) markFailed
                  .ok (db', creators, { success := false, message := "Invalid destination tag" })
                else
                  let db' := updateFirstTip db (fun t => decide (t.id = tipId))
                    (confirmMarkTip vtx now)
                  let creators' := updateCreatorStats creators creator.id
                    (recomputeStats db' creator)
                  .ok (db', creators', { success := true, message := "Tip confirmed successfully" })

/-! ### Historical Reconciler (`src/services/xrplService.js` lines
312-424) -/

/-- `xrplClient.rippleTimeToDate` as a millisecond timestamp. -/
def rippleTimeToDate (rippleTime : ℤ) : ℤ := (rippleTime + 946684800) * 1000

/-- `tx.DeliverMax || tx.Amount` (JavaScript `||`: a zero `DeliverMax`
falls back to `Amount`). -/
def deliveredDrops (tx : RawTx) : ℚ :=
  match tx.DeliverMax with
  | some d => if d = 0 then tx.Amount else d
  | none => tx.Amount

/-- Folding state of one `syncCreatorTransactions` run. -/
structure SyncState where
  tips : List Tip
  newTips : ℕ
  updatedTips : ℕ
  skippedWrongTag : ℕ
  nextId : ℕ
deriving Repr, DecidableEq

/-- The counts `syncCreatorTransactions` returns. -/
structure SyncCounts where
  newTips : ℕ
  updatedTips : ℕ
  skippedWrongTag : ℕ
  totalProcessed : ℕ
deriving Repr, DecidableEq

/-- The per-entry payment filter of the sync loop (lines 344-349): only
successful inbound payments to the creator's address are processed. -/
def isQualifyingTx (creator : Creator) (tx : RawTx) : Bool :=
  decide (tx.TransactionType = "Payment") &&
  decide (tx.Destination = creator.xrpAddress) &&
  decide (tx.metaResult = some "tesSUCCESS")

/-- The tag-mismatch skip of the sync loop (line 358):
`destinationTag !== undefined && !validDestinationTags.includes(...)`. -/
def isWrongTagEntry (validDestinationTags : List ℕ) (tx : RawTx) : Bool :=
  match tx.DestinationTag with
  | some tag => !(validDestinationTags.contains tag)
  | none => false

/-- The entries one sync run counts as skipped-for-wrong-tag: a
transaction body is present, the payment filter passes, and the carried
tag is outside the valid set. -/
def isSkippedWrongTag (creator : Creator) (validDestinationTags : List ℕ)
    (txData : TxData) : Bool :=
  match txData.tx with
  | none => false
  | some tx => isQualifyingTx creator tx && isWrongTagEntry validDestinationTags tx

/-- The fresh tip document the sync loop persists for an entry not yet
represented by a Tip (lines 371-381): full delivered amount, `confirmed`,
no fee split, default redistribution fields. -/
def backfilledTip (newId : ℕ) (creator : Creator) (txData : TxData) (tx : RawTx) : Tip :=
  { id := newId
    creator := some creator.id
    creatorUsername := creator.username
    amount := deliveredDrops tx / 1000000
    senderAddress := tx.Account
    destinationTag := tx.DestinationTag
    status := .confirmed
    transactionHash := some txData.hash
    ledgerIndex := some txData.ledger_index
    confirmedAt := some (rippleTimeToDate tx.date)
    redistributed := false
    redistributionTxHash := none
    platformFee := 0
    creatorAmount := none
    totalAmount := none }

/-- The confirm-a-pending-tip mutation of the sync loop (lines 386-390):
`existingTip.confirm(txHash, ledger_index)` plus recording the entry's
tag. -/
def syncConfirmUpdate (txData : TxData) (now : ℤ) (tx : RawTx) (t : Tip) : Tip :=
  { t with
    status := TipStatus.confirmed
    transactionHash := some txData.hash
    ledgerIndex := some txData.ledger_index
    confirmedAt := some now
    destinationTag := tx.DestinationTag }

/-- One iteration of the sync loop (lines 336-398): filter, tag check,
dedup by transaction hash, then either create a confirmed tip or confirm
a pending one (updating its tag). A rejected `save()` is caught by the
per-entry catch and the loop continues. -/
def syncStep (creator : Creator) (validDestinationTags : List ℕ) (now : ℤ)
    (s : SyncState) (txData : TxData) : SyncState :=
  match txData.tx with
  | none => s
  | some tx =>
      if ¬isQualifyingTx creator tx = true then s
      else if isWrongTagEntry validDestinationTags tx then
        { s with skippedWrongTag := s.skippedWrongTag + 1 }
      else
        match s.tips.find? (fun t => decide (t.transactionHash = some txData.hash)) with
        | none =>
            let tip := backfilledTip s.nextId creator txData tx
            match saveTip s.tips tip with
            | .ok tips' =>
                { s with tips := tips', newTips := s.newTips + 1, nextId := s.nextId + 1 }
            | .error _ => { s with nextId := s.nextId + 1 }
        | some existing =>
            if existing.status = .pending then
              if validTip (syncConfirmUpdate txData now tx existing) then
                { s with
                  tips := updateFirstTip s.tips
                    (fun t => decide (t.transactionHash = some txData.hash))
                    (syncConfirmUpdate txData now tx)
                  updatedTips := s.updatedTips + 1 }
              else s
            else s

/-- Return value of `syncCreatorTransactions`. -/
structure SyncResult where
  tips : List Tip
  creator : Creator
  counts : SyncCounts
deriving Repr, DecidableEq

/-- `XRPLService.syncCreatorTransactions` (lines 312-424): fold the sync
loop over one fetched history page, then refresh the creator's aggregate
stats over all valid tags and return the counts. `startId` supplies the
fresh document ids. -/
def syncCreatorTransactions (creator : Creator) (transactions : List TxData)
    (db : List Tip) (now : ℤ) (startId : ℕ) : SyncResult :=
  let validDestinationTags := getAllValidDestinationTags creator
  let final := transactions.foldl (syncStep creator validDestinationTags now)
    { tips := db, newTips := 0, updatedTips := 0, skippedWrongTag := 0, nextId := startId }
  let stats := recomputeStats final.tips creator
  { tips := final.tips
    creator := { creator with stats := stats }
    counts :=
      { newTips := final.newTips
        updatedTips := final.updatedTips
        skippedWrongTag := final.skippedWrongTag
        totalProcessed := transactions.length } }

/-- How many stored tips carry a given transaction hash (the quantity the
unique index keeps at one). -/
def countTipsWithHash (db : List Tip) (h : String) : ℕ :=
  (db.filter (fun t => decide (t.transactionHash = some h))).length

/-- No redistribution happened between two store snapshots: every tip of
the later snapshot either has untouched default redistribution fields or
carries them over unchanged from some tip of the earlier snapshot. -/
def RedistPreserved (db0 db1 : List Tip) : Prop :=
  ∀ t ∈ db1, (t.redistributed = false ∧ t.redistributionTxHash = none) ∨
    ∃ u ∈ db0, t.redistributed = u.redistributed ∧
      t.redistributionTxHash = u.redistributionTxHash

/-! ### Concrete fixtures used by witnesses and counterexamples -/

/-- A syntactically valid XRP classic address used in fixtures. -/
def sampleCreatorAddress : String := "rABCDEFGHJKabcdefghjk23456789"

/-- A beneficiary fixture: personal wallet, current tag 777. -/
def sampleCreator : Creator :=
  { id := 1
    username := "alice"
    xrpAddress := sampleCreatorAddress
    walletType := .personal
    destinationTag := some 777
    userDestinationTag := none
    walletHistory := []
    stats := { totalTips := 0, totalAmount := 0, uniqueSupporters := 0 }
    updatedAt := 0 }

/-- A live payment fixture carrying tag 777 over 5 XRP. -/
def samplePayment : Payment :=
  { hash := "ABC123"
    from_ := ""
    to_ := "rPLATFORM1"
    amount := 5
    ledgerIndex := 100
    destinationTag := some 777 }

/-- A redistribution environment fixture whose 10 XRP balance cannot
cover any redistribution while retaining the 10 XRP reserve. -/
def lowReserveEnv : RedistEnv :=
  { initialized := true
    platformAddress := "rPLATFORM1"
    balanceDrops := 10000000
    submitSucceeds := true
    submitHash := "OUT1"
    submitLedgerIndex := 200 }

/-- A redistribution environment fixture with a comfortable 100 XRP
balance and a ledger that accepts the outbound transfer. -/
def richEnv : RedistEnv :=
  { initialized := true
    platformAddress := "rPLATFORM1"
    balanceDrops := 100000000
    submitSucceeds := true
    submitHash := "OUT2"
    submitLedgerIndex := 300 }

/-- A live payment fixture with no destination tag. -/
def taglessPayment : Payment :=
  { hash := "NOTAG1"
    from_ := ""
    to_ := "rPLATFORM1"
    amount := 5
    ledgerIndex := 101
    destinationTag := none }

/-- A stored tip fixture that is already confirmed. -/
def sampleConfirmedTip : Tip :=
  { id := 5
    creator := some 1
    creatorUsername := "alice"
    amount := 5
    senderAddress := ""
    destinationTag := some 777
    status := .confirmed
    transactionHash := some "ABC123"
    ledgerIndex := some 100
    confirmedAt := some 0
    redistributed := false
    redistributionTxHash := none
    platformFee := 0
    creatorAmount := some 5
    totalAmount := some 5 }

/-- A stored tip fixture still pending confirmation. -/
def samplePendingTip : Tip :=
  { id := 7
    creator := some 1
    creatorUsername := "alice"
    amount := 5
    senderAddress := ""
    destinationTag := none
    status := .pending
    transactionHash := none
    ledgerIndex := none
    confirmedAt := none
    redistributed := false
    redistributionTxHash := none
    platformFee := 0
    creatorAmount := none
    totalAmount := none }

/-- A beneficiary fixture owning the (valid 32-bit) destination tag 0. -/
def tag0Creator : Creator :=
  { id := 2
    username := "bob"
    xrpAddress := sampleCreatorAddress
    walletType := .personal
    destinationTag := some 0
    userDestinationTag := none
    walletHistory := []
    stats := { totalTips := 0, totalAmount := 0, uniqueSupporters := 0 }
    updatedAt := 0 }

/-- A validated platform-wallet payment carrying destination tag 0. -/
def tag0Tx : RawTx :=
  { TransactionType := "Payment"
    metaResult := some "tesSUCCESS"
    Destination := "rPLATFORM1"
    Account := ""
    Amount := 5000000
    DeliverMax := none
    DestinationTag := some 0
    hash := "TAG0TX"
    date := 0
    ledger_index := 400
    Fee := 12 }

/-- The subscription envelope for `tag0Tx`. -/
def tag0TxData : TxData :=
  { tx := some tag0Tx, hash := "TAG0TX", ledger_index := 400 }

/-- A ledger transaction paying the beneficiary directly, tagged 0, used
to exercise `verifyAndConfirmTip`. -/
def tag0LedgerTx : RawTx :=
  { TransactionType := "Payment"
    metaResult := some "tesSUCCESS"
    Destination := sampleCreatorAddress
    Account := ""
    Amount := 5000000
    DeliverMax := none
    DestinationTag := some 0
    hash := "VERIF0"
    date := 0
    ledger_index := 500
    Fee := 12 }

/-- A one-transaction ledger lookup serving `tag0LedgerTx`. -/
def tag0Ledger : String → Option RawTx :=
  fun h => if h = "VERIF0" then some tag0LedgerTx else none

/-- The tag-777 beneficiary after a wallet reassignment to tag 888
(pushing the 777 assignment into wallet history). -/
def movedCreator : Creator :=
  applyWalletChange sampleCreator "rNEWADDRESS" .personal (some 888) none 1

/-- A confirmed tip recorded under the retired tag 777. -/
def oldTagTip : Tip :=
  { id := 9
    creator := some 1
    creatorUsername := "alice"
    amount := 3
    senderAddress := ""
    destinationTag := some 777
    status := .confirmed
    transactionHash := some "OLDTAG"
    ledgerIndex := some 90
    confirmedAt := some 0
    redistributed := false
    redistributionTxHash := none
    platformFee := 0
    creatorAmount := none
    totalAmount := none }

/-- A history-page payment of 10.5 XRP to the tag-777 beneficiary. -/
def syncTx1 : RawTx :=
  { TransactionType := "Payment"
    metaResult := some "tesSUCCESS"
    Destination := sampleCreatorAddress
    Account := ""
    Amount := 10500000
    DeliverMax := none
    DestinationTag := some 777
    hash := "SYNC1"
    date := 0
    ledger_index := 600
    Fee := 12 }

/-- The `account_tx` envelope of `syncTx1`. -/
def syncTxData1 : TxData :=
  { tx := some syncTx1, hash := "SYNC1", ledger_index := 600 }

/-- The verification payload `verifyPayment` produces for
`tag0LedgerTx`. -/
def tag0VerifiedTx : VerifiedTx :=
  { hash := "VERIF0"
    from_ := ""
    to_ := sampleCreatorAddress
    amount := 5
    destinationTag := some 0
    ledgerIndex := 500
    date := 0
    fee := 3/250000 }

lemma jsRound_intCast (m : ℤ) : jsRound (m : ℚ) = m := by
  unfold jsRound
  rw [Int.floor_int_add]
  norm_num

lemma jsRound_div_natCast (a : ℤ) (b : ℕ) (hb : 0 < b) :
    jsRound ((a : ℚ) / (b : ℚ)) = (2 * a + b) / (2 * (b : ℤ)) := by
  have hbq : ((b : ℚ)) ≠ 0 := by positivity
  unfold jsRound
  have h : (a : ℚ) / (b : ℚ) + 1/2 = (((2 * a + b : ℤ)) : ℚ) / (((2 * b : ℕ)) : ℚ) := by
    push_cast
    field_simp
    ring
  rw [h, Rat.floor_intCast_div_natCast]
  push_cast
  rfl

lemma jsRound_split_sum (n : ℤ) :
    jsRound ((20 * n : ℚ) / 21) + jsRound ((n : ℚ) / 21) = n := by
  have h1 : ((20 * n : ℚ) / 21) = (((20 * n : ℤ)) : ℚ) / (((21 : ℕ)) : ℚ) := by
    push_cast
    ring
  have h2 : ((n : ℚ) / 21) = ((n : ℤ) : ℚ) / (((21 : ℕ)) : ℚ) := by
    push_cast
    ring
  rw [h1, h2, jsRound_div_natCast _ _ (by norm_num), jsRound_div_natCast _ _ (by norm_num)]
  omega

example : calculateBackendFees (21/2) = { creatorAmount := 10, platformFee := 1/2 } := by
  norm_num [calculateBackendFees, feesConfig, roundTo2, jsRound]

example : calculateBackendFees (1/2) = { creatorAmount := 1/2, platformFee := 0 } := by
  norm_num [calculateBackendFees, feesConfig, roundTo2, jsRound]

example : calculateBackendFees (2111/200) =
    { creatorAmount := 201/20, platformFee := 1/2 } := by
  norm_num [calculateBackendFees, feesConfig, roundTo2, jsRound]

/-- The shape `calculateBackendFees` takes at or above the threshold. -/
lemma calculateBackendFees_above (g : ℚ) (h1 : (1 : ℚ) ≤ g) :
    calculateBackendFees g =
      { creatorAmount := roundTo2 (g - (if g - g / (1 + 1/20) < 1/10 then 1/10
          else g - g / (1 + 1/20)))
        platformFee := roundTo2 (if g - g / (1 + 1/20) < 1/10 then 1/10
          else g - g / (1 + 1/20)) } := by
  have hth : ¬(g < feesConfig.minAmountForFees) := by
    simp only [feesConfig]
    exact not_lt.mpr h1
  unfold calculateBackendFees
  rw [if_neg hth]
  simp only [feesConfig]
  by_cases hc : g - g / (1 + 1/20) < 1/10
  · rw [if_pos ⟨hc, h1⟩, if_pos hc]
  · rw [if_neg (fun hh => hc hh.1), if_neg hc]

/-- C2: the claim as stated is false: at gross amount 10.555 XRP (above
the 1 XRP fee threshold) the returned creator amount 10.05 and platform
fee 0.50 sum to 10.55, not 10.555 — the two outputs are rounded
independently, so sub-cent input precision leaks. -/
theorem calculateBackendFees_sum_leaks_at_10555 :
    feesConfig.minAmountForFees ≤ (10555/1000 : ℚ) ∧
    (calculateBackendFees (10555/1000)).creatorAmount +
        (calculateBackendFees (10555/1000)).platformFee ≠ (10555/1000 : ℚ) := by
  constructor
  · norm_num [feesConfig]
  · norm_num [calculateBackendFees, feesConfig, roundTo2, jsRound]

/-- C2 (amended): for every gross amount at or above the configured
threshold that is a whole number of two-decimal units (`n` hundredths,
the unit `calculateBackendFees` rounds to), the returned pair satisfies
`creatorAmount + platformFee = gross` exactly, and the platform fee is at
least the configured minimum fee (no maximum fee is configured). For
gross amounts with sub-cent precision the sum can differ from the gross
amount. -/
theorem calculateBackendFees_sum_exact_on_cent_grid (n : ℤ) (h : 100 ≤ n) :
    (calculateBackendFees ((n : ℚ) / 100)).creatorAmount +
        (calculateBackendFees ((n : ℚ) / 100)).platformFee = (n : ℚ) / 100 ∧
      feesConfig.minFee ≤ (calculateBackendFees ((n : ℚ) / 100)).platformFee := by
  have hn : (100 : ℚ) ≤ (n : ℚ) := by exact_mod_cast h
  have h1 : (1 : ℚ) ≤ (n : ℚ) / 100 := by linarith
  rw [calculateBackendFees_above _ h1]
  simp only [feesConfig]
  by_cases hc : (n : ℚ) / 100 - (n : ℚ) / 100 / (1 + 1/20) < 1/10
  · rw [if_pos hc]
    have e1 : roundTo2 ((n : ℚ) / 100 - 1/10) = ((n - 10 : ℤ) : ℚ) / 100 := by
      unfold roundTo2
      rw [show ((n : ℚ) / 100 - 1/10) * 100 = ((n - 10 : ℤ) : ℚ) by push_cast; ring,
        jsRound_intCast]
    have e2 : roundTo2 (1/10 : ℚ) = 1/10 := by
      unfold roundTo2 jsRound
      norm_num
    rw [e1, e2]
    constructor
    · push_cast
      ring
    · linarith
  · rw [if_neg hc]
    have hfee : (n : ℚ) / 100 - (n : ℚ) / 100 / (1 + 1/20) = (n : ℚ) / 2100 := by ring
    have hn210 : (210 : ℤ) ≤ n := by
      rw [hfee] at hc
      push_neg at hc
      have : (210 : ℚ) ≤ (n : ℚ) := by linarith
      exact_mod_cast this
    have e1 : roundTo2 ((n : ℚ) / 100 - ((n : ℚ) / 100 - (n : ℚ) / 100 / (1 + 1/20))) =
        (jsRound ((20 * n : ℚ) / 21) : ℚ) / 100 := by
      unfold roundTo2
      rw [show ((n : ℚ) / 100 - ((n : ℚ) / 100 - (n : ℚ) / 100 / (1 + 1/20))) * 100 =
        (20 * n : ℚ) / 21 by ring]
    have e2 : roundTo2 ((n : ℚ) / 100 - (n : ℚ) / 100 / (1 + 1/20)) =
        (jsRound ((n : ℚ) / 21) : ℚ) / 100 := by
      unfold roundTo2
      rw [show ((n : ℚ) / 100 - (n : ℚ) / 100 / (1 + 1/20)) * 100 = (n : ℚ) / 21 by ring]
    rw [e1, e2]
    constructor
    · have hsum := jsRound_split_sum n
      have : ((jsRound ((20 * n : ℚ) / 21) : ℚ)) + ((jsRound ((n : ℚ) / 21) : ℚ)) = (n : ℚ) := by
        exact_mod_cast congrArg (fun z : ℤ => (z : ℚ)) hsum
      linarith
    · have hv : jsRound ((n : ℚ) / 21) = (2 * n + 21) / (2 * (21 : ℤ)) := by
        rw [show ((n : ℚ) / 21) = ((n : ℤ) : ℚ) / (((21 : ℕ)) : ℚ) by push_cast; ring]
        exact jsRound_div_natCast n 21 (by norm_num)
      have h10 : (10 : ℤ) ≤ (2 * n + 21) / (2 * (21 : ℤ)) := by omega
      have h10q : (10 : ℚ) ≤ ((2 * n + 21) / (2 * (21 : ℤ)) : ℤ) := by exact_mod_cast h10
      rw [hv]
      linarith

/-- Witness for `calculateBackendFees_sum_exact_on_cent_grid` at
n = 1050 hundredths (gross 10.5 XRP). -/
theorem calculateBackendFees_sum_exact_on_cent_grid_witness :
    (100 : ℤ) ≤ 1050 ∧
    ((calculateBackendFees (((1050 : ℤ) : ℚ) / 100)).creatorAmount +
        (calculateBackendFees (((1050 : ℤ) : ℚ) / 100)).platformFee = ((1050 : ℤ) : ℚ) / 100 ∧
      feesConfig.minFee ≤ (calculateBackendFees (((1050 : ℤ) : ℚ) / 100)).platformFee) :=
  ⟨by norm_num, calculateBackendFees_sum_exact_on_cent_grid 1050 (by norm_num)⟩

/-- Extracting a successful `save()` of a hash-bearing tip: the document
was valid, no stored tip shared its transaction hash, and the store
gained exactly that document. -/
lemma saveTip_ok_some {db db' : List Tip} {t : Tip} {h : String}
    (ht : t.transactionHash = some h) (hs : saveTip db t = .ok db') :
    validTip t = true ∧
      db.any (fun u => decide (u.transactionHash = some h)) = false ∧
      db' = db ++ [t] := by
  unfold saveTip at hs
  rw [ht] at hs
  simp only [] at hs
  by_cases hv : validTip t = true
  · rw [if_pos hv] at hs
    by_cases hd : db.any (fun u => decide (u.transactionHash = some h)) = true
    · rw [if_pos hd] at hs
      cases hs
    · rw [if_neg hd] at hs
      cases hs
      exact ⟨hv, by simpa using hd, rfl⟩
  · rw [if_neg hv] at hs
    cases hs

/-- `redistributeTip` with the projected post-transfer balance below the
reserve: it refuses with the reserve error and submits nothing. -/
lemma redistributeTip_insufficient (env : RedistEnv) (tx : RedistTxArg)
    (addr : String) (amt : ℚ) (hinit : env.initialized = true)
    (hr : (env.balanceDrops : ℚ) / 1000000 -
      ((calculateBackendFees amt).creatorAmount + 12/1000000) < minReserve) :
    redistributeTip env tx addr amt =
      { submitted := none, result := .error .insufficientReserve } := by
  simp only [redistributeTip, hinit, not_true, if_false]
  rw [if_pos hr]

/-- C4: with the service initialized, `redistributeTip` fails with the
`InsufficientReserve` error exactly when
`balance - (creatorAmount + feeEstimate) < minReserve` (the network fee
estimate is 0.000012 XRP), submitting no outbound transfer in that case;
and when the Payment Observer's redistribution attempt fails this way,
the already-persisted Tip is in the new store, still `confirmed` and not
redistributed (never marked `failed`). -/
theorem redistributeTip_reserve_guard (env : RedistEnv) (tx : RedistTxArg)
    (addr : String) (amt : ℚ) (hinit : env.initialized = true) :
    ((redistributeTip env tx addr amt).result = .error .insufficientReserve ↔
      (env.balanceDrops : ℚ) / 1000000 -
        ((calculateBackendFees amt).creatorAmount + 12/1000000) < minReserve) ∧
    ((redistributeTip env tx addr amt).result = .error .insufficientReserve →
      (redistributeTip env tx addr amt).submitted = none) ∧
    (∀ (creators : List Creator) (now : ℤ) (newId : ℕ) (db db' : List Tip)
        (p : Payment) (tag : ℕ) (c : Creator),
      p.destinationTag = some tag →
      findCreatorByDestinationTag creators tag = some c →
      saveTip db (attributedTip newId p tag c (calculateBackendFees p.amount) now) = .ok db' →
      (env.balanceDrops : ℚ) / 1000000 -
        ((calculateBackendFees p.amount).creatorAmount + 12/1000000) < minReserve →
      monitorHandler creators env now newId db p = (db', creators, .recordedNotRedistributed) ∧
        (attributedTip newId p tag c (calculateBackendFees p.amount) now).status = .confirmed ∧
        (attributedTip newId p tag c (calculateBackendFees p.amount) now).redistributed = false ∧
        attributedTip newId p tag c (calculateBackendFees p.amount) now ∈ db') := by
  refine ⟨?_, ?_, ?_⟩
  · by_cases hr : (env.balanceDrops : ℚ) / 1000000 -
        ((calculateBackendFees amt).creatorAmount + 12/1000000) < minReserve
    · rw [redistributeTip_insufficient env tx addr amt hinit hr]
      simpa using hr
    · simp only [redistributeTip, hinit, not_true, if_false]
      rw [if_neg hr]
      by_cases hs : env.submitSucceeds = true <;> simp [hs, hr]
  · intro he
    by_cases hr : (env.balanceDrops : ℚ) / 1000000 -
        ((calculateBackendFees amt).creatorAmount + 12/1000000) < minReserve
    · rw [redistributeTip_insufficient env tx addr amt hinit hr]
    · exfalso
      revert he
      simp only [redistributeTip, hinit, not_true, if_false]
      rw [if_neg hr]
      by_cases hs : env.submitSucceeds = true <;> simp [hs]
  · intro creators now newId db db' p tag c hp hres hsave hr
    obtain ⟨hv, hdup, hdb⟩ := saveTip_ok_some rfl hsave
    subst hdb
    refine ⟨?_, rfl, rfl, List.mem_append_right _ (List.mem_singleton.mpr rfl)⟩
    simp only [monitorHandler, hp, hres, hdup]
    rw [hsave]
    rw [redistributeTip_insufficient env (paymentToTxArg p) c.xrpAddress p.amount hinit hr]
    simp

/-- Witness for `redistributeTip_reserve_guard`: a 5 XRP payment to the
tag-777 beneficiary against a 10 XRP balance is recorded but its
redistribution is refused by the reserve guard. -/
theorem redistributeTip_reserve_guard_witness :
    monitorHandler [sampleCreator] lowReserveEnv 0 11 [] samplePayment =
      ([] ++ [attributedTip 11 samplePayment 777 sampleCreator
          (calculateBackendFees samplePayment.amount) 0], [sampleCreator],
        .recordedNotRedistributed) ∧
      (attributedTip 11 samplePayment 777 sampleCreator
        (calculateBackendFees samplePayment.amount) 0).status = .confirmed ∧
      (attributedTip 11 samplePayment 777 sampleCreator
        (calculateBackendFees samplePayment.amount) 0).redistributed = false ∧
      attributedTip 11 samplePayment 777 sampleCreator
          (calculateBackendFees samplePayment.amount) 0 ∈
        ([] ++ [attributedTip 11 samplePayment 777 sampleCreator
          (calculateBackendFees samplePayment.amount) 0]) := by
  have hsplit : calculateBackendFees (5 : ℚ) =
      { creatorAmount := 119/25, platformFee := 6/25 } := by
    norm_num [calculateBackendFees, feesConfig, roundTo2, jsRound]
  refine (redistributeTip_reserve_guard lowReserveEnv
      (paymentToTxArg samplePayment) sampleCreator.xrpAddress samplePayment.amount rfl).2.2
    [sampleCreator] 0 11 [] _ samplePayment 777 sampleCreator rfl rfl ?_ ?_
  · have halice : ¬("alice" = "") := by decide
    have hv : validTip (attributedTip 11 samplePayment 777 sampleCreator
        (calculateBackendFees samplePayment.amount) 0) = true := by
      norm_num [validTip, attributedTip, samplePayment, sampleCreator, hsplit, halice]
    unfold saveTip
    rw [hv]
    simp [attributedTip, samplePayment]
  · norm_num [lowReserveEnv, samplePayment, hsplit, minReserve]

/-- The `save()` of a valid hash-bearing tip whose hash is fresh appends
the document. -/
lemma saveTip_ok_of {db : List Tip} {t : Tip} {h : String}
    (ht : t.transactionHash = some h) (hv : validTip t = true)
    (hd : db.any (fun u => decide (u.transactionHash = some h)) = false) :
    saveTip db t = .ok (db ++ [t]) := by
  unfold saveTip
  rw [if_pos hv, ht]
  simp [hd]

/-- No stored tip carries the hash when the duplicate scan is false. -/
lemma countTipsWithHash_eq_zero {db : List Tip} {h : String}
    (hd : db.any (fun u => decide (u.transactionHash = some h)) = false) :
    countTipsWithHash db h = 0 := by
  unfold countTipsWithHash
  rw [List.filter_eq_nil_iff.mpr (List.any_eq_false.mp hd)]
  rfl

/-- Appending one tip adds one to the count exactly when its hash
matches. -/
lemma countTipsWithHash_append (db : List Tip) (t : Tip) (h : String) :
    countTipsWithHash (db ++ [t]) h =
      countTipsWithHash db h + (if t.transactionHash = some h then 1 else 0) := by
  unfold countTipsWithHash
  rw [List.filter_append]
  by_cases hh : t.transactionHash = some h <;> simp [hh]

/-- The duplicate scan sees any stored tip carrying the hash. -/
lemma any_hash_of_count_pos {db : List Tip} {h : String}
    (hc : 0 < countTipsWithHash db h) :
    db.any (fun u => decide (u.transactionHash = some h)) = true := by
  unfold countTipsWithHash at hc
  rw [List.length_pos] at hc
  obtain ⟨t, ht⟩ := List.exists_mem_of_ne_nil _ hc
  have := List.mem_filter.mp ht
  exact List.any_eq_true.mpr ⟨t, this.1, this.2⟩

/-- Updating stored tips without touching the hash of the tip actually
updated preserves the per-hash count. -/
lemma countTipsWithHash_updateFirstTip (db : List Tip) (q : Tip → Bool) (f : Tip → Tip)
    (hpres : ∀ u, q u = true → (f u).transactionHash = u.transactionHash) (h : String) :
    countTipsWithHash (updateFirstTip db q f) h = countTipsWithHash db h := by
  induction db with
  | nil => rfl
  | cons t rest ih =>
      unfold updateFirstTip
      by_cases hq : q t = true
      · rw [if_pos hq]
        unfold countTipsWithHash
        rw [List.filter_cons, List.filter_cons, hpres t hq]
        by_cases hh : decide (t.transactionHash = some h) = true <;> simp [hh]
      · rw [if_neg hq]
        unfold countTipsWithHash at ih ⊢
        rw [List.filter_cons, List.filter_cons]
        by_cases hh : decide (t.transactionHash = some h) = true <;> simp [hh, ih]

/-- Refreshing one creator's stats does not change which creator a tag
resolves to (up to the stats field). -/
lemma findCreator_updateStats (creators : List Creator) (cid : ℕ) (s : Stats) (tag : ℕ) :
    findCreatorByDestinationTag (updateCreatorStats creators cid s) tag =
      Option.map (fun c => if c.id = cid then { c with stats := s } else c)
        (findCreatorByDestinationTag creators tag) := by
  unfold findCreatorByDestinationTag updateCreatorStats
  rw [List.find?_map, List.find?_map]
  have hcur : (currentTagMatches tag) ∘
      (fun c : Creator => if c.id = cid then { c with stats := s } else c) =
      currentTagMatches tag := by
    funext c
    by_cases hc : c.id = cid <;> simp [hc, currentTagMatches, Function.comp]
  have hhist : (historyTagMatches tag) ∘
      (fun c : Creator => if c.id = cid then { c with stats := s } else c) =
      historyTagMatches tag := by
    funext c
    by_cases hc : c.id = cid <;> simp [hc, historyTagMatches, Function.comp]
  rw [hcur, hhist]
  cases creators.find? (currentTagMatches tag) <;> simp

/-- C1: sequential duplicate delivery of one resolved payment: the first
delivery persists the tip (its hash now appears exactly once) and is the
only one that can invoke the Redistribution Executor; the second
delivery stops at the idempotency check with the `duplicate` outcome,
changing neither the tip store nor the directory, so two deliveries
yield exactly one Tip and at most one redistribution. -/
theorem duplicate_delivery_idempotent (creators : List Creator) (env : RedistEnv)
    (now1 now2 : ℤ) (id1 id2 : ℕ) (db : List Tip) (p : Payment) (tag : ℕ) (c : Creator)
    (hp : p.destinationTag = some tag)
    (hres : findCreatorByDestinationTag creators tag = some c)
    (hfresh : db.any (fun u => decide (u.transactionHash = some p.hash)) = false)
    (hvalid : validTip (attributedTip id1 p tag c (calculateBackendFees p.amount) now1) = true) :
    countTipsWithHash (monitorHandler creators env now1 id1 db p).1 p.hash = 1 ∧
    monitorHandler (monitorHandler creators env now1 id1 db p).2.1 env now2 id2
        (monitorHandler creators env now1 id1 db p).1 p =
      ((monitorHandler creators env now1 id1 db p).1,
        (monitorHandler creators env now1 id1 db p).2.1, .duplicate) ∧
    redistInvocations (monitorHandler creators env now1 id1 db p).2.2 +
        redistInvocations (monitorHandler (monitorHandler creators env now1 id1 db p).2.1 env
          now2 id2 (monitorHandler creators env now1 id1 db p).1 p).2.2 ≤ 1 := by
  have hsave : saveTip db (attributedTip id1 p tag c (calculateBackendFees p.amount) now1) =
      .ok (db ++ [attributedTip id1 p tag c (calculateBackendFees p.amount) now1]) :=
    saveTip_ok_of rfl hvalid hfresh
  have hcount0 : countTipsWithHash db p.hash = 0 := countTipsWithHash_eq_zero hfresh
  have hcount1 : countTipsWithHash
      (db ++ [attributedTip id1 p tag c (calculateBackendFees p.amount) now1]) p.hash = 1 := by
    rw [countTipsWithHash_append, hcount0]
    simp [attributedTip]
  have hdup1 : (db ++ [attributedTip id1 p tag c (calculateBackendFees p.amount) now1]).any
      (fun u => decide (u.transactionHash = some p.hash)) = true :=
    any_hash_of_count_pos (hcount1 ▸ Nat.zero_lt_one)
  cases hredOut : (redistributeTip env (paymentToTxArg p) c.xrpAddress p.amount).result with
  | error e =>
      have hrun : monitorHandler creators env now1 id1 db p =
          (db ++ [attributedTip id1 p tag c (calculateBackendFees p.amount) now1],
            creators, .recordedNotRedistributed) := by
        simp only [monitorHandler, hp, hres, hfresh]
        rw [hsave, hredOut]
        simp
      rw [hrun]
      have hsecond : monitorHandler creators env now2 id2
          (db ++ [attributedTip id1 p tag c (calculateBackendFees p.amount) now1]) p =
          (db ++ [attributedTip id1 p tag c (calculateBackendFees p.amount) now1],
            creators, .duplicate) := by
        simp only [monitorHandler, hp, hres, hdup1]
        simp
      exact ⟨hcount1, hsecond, by rw [hsecond]; simp [redistInvocations]⟩
  | ok rs =>
      have hrun : monitorHandler creators env now1 id1 db p =
          (updateFirstTip (db ++ [attributedTip id1 p tag c (calculateBackendFees p.amount) now1])
              (fun t => decide (t.transactionHash = some p.hash))
              (markRedistributed rs.txHash),
            updateCreatorStats creators c.id
              (recomputeStats
                (updateFirstTip (db ++ [attributedTip id1 p tag c
                    (calculateBackendFees p.amount) now1])
                  (fun t => decide (t.transactionHash = some p.hash))
                  (markRedistributed rs.txHash)) c),
            .recordedAndRedistributed) := by
        simp only [monitorHandler, hp, hres, hfresh]
        rw [hsave, hredOut]
        simp
      have hcount1u : countTipsWithHash
          (updateFirstTip (db ++ [attributedTip id1 p tag c (calculateBackendFees p.amount) now1])
            (fun t => decide (t.transactionHash = some p.hash))
            (markRedistributed rs.txHash))
          p.hash = 1 := by
        rw [countTipsWithHash_updateFirstTip _ _ (markRedistributed rs.txHash)
          (fun u _ => rfl), hcount1]
      have hdup1u : (updateFirstTip (db ++ [attributedTip id1 p tag c
          (calculateBackendFees p.amount) now1])
            (fun t => decide (t.transactionHash = some p.hash))
            (markRedistributed rs.txHash)).any
          (fun u => decide (u.transactionHash = some p.hash)) = true :=
        any_hash_of_count_pos (hcount1u ▸ Nat.zero_lt_one)
      obtain ⟨c2, hres2⟩ : ∃ c2, findCreatorByDestinationTag (updateCreatorStats creators c.id
          (recomputeStats
            (updateFirstTip (db ++ [attributedTip id1 p tag c (calculateBackendFees p.amount) now1])
              (fun t => decide (t.transactionHash = some p.hash))
              (markRedistributed rs.txHash)) c)) tag = some c2 := by
        rw [findCreator_updateStats, hres]
        exact ⟨_, rfl⟩
      have hsecond : monitorHandler (updateCreatorStats creators c.id
          (recomputeStats
            (updateFirstTip (db ++ [attributedTip id1 p tag c (calculateBackendFees p.amount) now1])
              (fun t => decide (t.transactionHash = some p.hash))
              (markRedistributed rs.txHash)) c)) env now2 id2
          (updateFirstTip (db ++ [attributedTip id1 p tag c (calculateBackendFees p.amount) now1])
            (fun t => decide (t.transactionHash = some p.hash))
            (markRedistributed rs.txHash)) p =
          (updateFirstTip (db ++ [attributedTip id1 p tag c (calculateBackendFees p.amount) now1])
            (fun t => decide (t.transactionHash = some p.hash))
            (markRedistributed rs.txHash),
            updateCreatorStats creators c.id
              (recomputeStats
                (updateFirstTip (db ++ [attributedTip id1 p tag c
                    (calculateBackendFees p.amount) now1])
                  (fun t => decide (t.transactionHash = some p.hash))
                  (markRedistributed rs.txHash)) c), .duplicate) := by
        simp only [monitorHandler, hp, hres2, hdup1u]
        simp
      rw [hrun]
      exact ⟨hcount1u, hsecond, by rw [hsecond]; simp [redistInvocations]⟩

/-- Witness for `duplicate_delivery_idempotent`: the 5 XRP tag-777
payment delivered twice against the well-funded environment. -/
theorem duplicate_delivery_idempotent_witness :
    countTipsWithHash (monitorHandler [sampleCreator] richEnv 0 21 [] samplePayment).1
        samplePayment.hash = 1 ∧
    monitorHandler (monitorHandler [sampleCreator] richEnv 0 21 [] samplePayment).2.1 richEnv 0 22
        (monitorHandler [sampleCreator] richEnv 0 21 [] samplePayment).1 samplePayment =
      ((monitorHandler [sampleCreator] richEnv 0 21 [] samplePayment).1,
        (monitorHandler [sampleCreator] richEnv 0 21 [] samplePayment).2.1, .duplicate) ∧
    redistInvocations (monitorHandler [sampleCreator] richEnv 0 21 [] samplePayment).2.2 +
        redistInvocations (monitorHandler
          (monitorHandler [sampleCreator] richEnv 0 21 [] samplePayment).2.1 richEnv 0 22
          (monitorHandler [sampleCreator] richEnv 0 21 [] samplePayment).1 samplePayment).2.2 ≤ 1 := by
  have hsplit : calculateBackendFees (5 : ℚ) =
      { creatorAmount := 119/25, platformFee := 6/25 } := by
    norm_num [calculateBackendFees, feesConfig, roundTo2, jsRound]
  have halice : ¬("alice" = "") := by decide
  exact duplicate_delivery_idempotent [sampleCreator] richEnv 0 0 21 22 [] samplePayment 777
    sampleCreator rfl rfl rfl
    (by norm_num [validTip, attributedTip, samplePayment, sampleCreator, hsplit, halice])

/-- C10: every outbound redistribution transfer constructed for a
payment delivered by the live Payment Observer carries no
`DestinationTag`: `redistributeTip` reads the capitalized
`transaction.DestinationTag`, but the observer's payment object defines
only the lowercase `destinationTag`, so the read is always `undefined` —
whatever the original payment's tag and whoever the beneficiary is. -/
theorem liveRedistribution_has_no_destination_tag (env : RedistEnv) (p : Payment)
    (creatorAddress : String) (totalAmount : ℚ) (out : OutboundPayment)
    (hsub : (redistributeTip env (paymentToTxArg p) creatorAddress totalAmount).submitted =
      some out) :
    out.DestinationTag = none := by
  simp only [redistributeTip] at hsub
  by_cases hi : ¬env.initialized = true
  · rw [if_pos hi] at hsub
    cases hsub
  · rw [if_neg hi] at hsub
    by_cases hr : (env.balanceDrops : ℚ) / 1000000 -
        ((calculateBackendFees totalAmount).creatorAmount + 12/1000000) < minReserve
    · rw [if_pos hr] at hsub
      cases hsub
    · rw [if_neg hr] at hsub
      by_cases hs : env.submitSucceeds = true
      · rw [if_pos hs] at hsub
        cases hsub
        rfl
      · rw [if_neg hs] at hsub
        cases hsub
        rfl

/-- Witness for `liveRedistribution_has_no_destination_tag`: the
submitted transfer for the tag-777 live payment carries no tag. -/
theorem liveRedistribution_has_no_destination_tag_witness :
    (buildOutboundPayment richEnv.platformAddress (paymentToTxArg samplePayment)
      sampleCreatorAddress
      (calculateBackendFees samplePayment.amount).creatorAmount).DestinationTag = none := by
  refine liveRedistribution_has_no_destination_tag richEnv samplePayment sampleCreatorAddress
    samplePayment.amount _ ?_
  have hsplit : calculateBackendFees (5 : ℚ) =
      { creatorAmount := 119/25, platformFee := 6/25 } := by
    norm_num [calculateBackendFees, feesConfig, roundTo2, jsRound]
  norm_num [redistributeTip, richEnv, samplePayment, hsplit, minReserve]

/-- C8: `verifyAndConfirmTip` on an already-confirmed tip is a no-op: it
resolves without error, reports "Tip already confirmed", and returns the
tip store and directory unchanged. -/
theorem verifyAndConfirm_already_confirmed_noop (getTx : String → Option RawTx)
    (creators : List Creator) (db : List Tip) (tipId : ℕ) (txHash : String) (now : ℤ)
    (tip : Tip) (hfind : findTipById db tipId = some tip)
    (hst : tip.status = .confirmed) :
    verifyAndConfirmTip getTx creators db tipId txHash now =
      .ok (db, creators, { success := false, message := "Tip already confirmed" }) := by
  simp only [verifyAndConfirmTip, hfind]
  rw [if_pos hst]

/-- Witness for `verifyAndConfirm_already_confirmed_noop` on the stored
confirmed tip fixture. -/
theorem verifyAndConfirm_already_confirmed_noop_witness :
    verifyAndConfirmTip (fun _ => none) [sampleCreator] [sampleConfirmedTip] 5 "XYZ" 0 =
      .ok ([sampleConfirmedTip], [sampleCreator],
        { success := false, message := "Tip already confirmed" }) :=
  verifyAndConfirm_already_confirmed_noop (fun _ => none) [sampleCreator] [sampleConfirmedTip]
    5 "XYZ" 0 sampleConfirmedTip rfl rfl

/-- C3: the claim states the intent of the service code and of the spec,
but the persistence layer contradicts it: the Payment Observer's
unattributed branch builds a `creator: null` document while `tipSchema`
declares `creator` required, so mongoose validation rejects the save;
the caught error leaves the payment entirely unrecorded instead of
persisted as an unattributed Tip. -/
theorem unattributed_tip_save_rejected :
    (unassignedTip 12 taglessPayment none 0).creator = none ∧
    validTip (unassignedTip 12 taglessPayment none 0) = false ∧
    monitorHandler [sampleCreator] richEnv 0 12 [] taglessPayment =
      ([], [sampleCreator], .processingError) := by
  refine ⟨rfl, ?_, ?_⟩
  · simp [validTip, unassignedTip]
  · have hv : validTip (unassignedTip 12 taglessPayment none 0) = false := by
      simp [validTip, unassignedTip]
    have hpd : taglessPayment.destinationTag = none := rfl
    simp only [monitorHandler, hpd]
    unfold saveTip
    rw [hv]
    simp

/-- C9: the claim's "records such a payment as unattributed" is false in
its persistence half: at a concrete tag-0 payment, whose tag some
beneficiary actually owns, the observer takes the unattributed branch
but the save is rejected (required creator reference), so nothing at all
is recorded. -/
theorem tag0_payment_leaves_no_record :
    tag0Tx.DestinationTag = some 0 ∧
    currentTagMatches 0 tag0Creator = true ∧
    (mkPaymentFromTx tag0TxData tag0Tx).destinationTag = none ∧
    monitorHandler [tag0Creator] richEnv 0 13 [] (mkPaymentFromTx tag0TxData tag0Tx) =
      ([], [tag0Creator], .processingError) := by
  refine ⟨rfl, rfl, rfl, ?_⟩
  have hpd : (mkPaymentFromTx tag0TxData tag0Tx).destinationTag = none := rfl
  have hv : validTip (unassignedTip 13 (mkPaymentFromTx tag0TxData tag0Tx) none 0) = false := by
    simp [validTip, unassignedTip]
  simp only [monitorHandler, hpd]
  unfold saveTip
  rw [hv]
  simp

/-- C9 (amended): a zero destination tag — a valid 32-bit tag — is
treated everywhere as an absent tag: (i) the live subscription
normalizes tag 0 to null; (ii) the Payment Observer then takes the
unattributed branch without resolving the owner of tag 0 (and since the
schema requires the creator reference, the unattributed save is
rejected, so nothing is persisted); (iii) the tag-membership rejection
of `verifyAndConfirmTip` never fires on tag 0; (iv) a pending tip whose
verified transaction carries tag 0 is confirmed even when 0 is not among
the beneficiary's valid tags. -/
theorem tag0_treated_as_absent :
    (∀ (data : TxData) (tx : RawTx), tx.DestinationTag = some 0 →
      (mkPaymentFromTx data tx).destinationTag = none) ∧
    (∀ (creators : List Creator) (env : RedistEnv) (now : ℤ) (newId : ℕ)
        (db : List Tip) (p : Payment), p.destinationTag = none →
      monitorHandler creators env now newId db p = (db, creators, .processingError)) ∧
    (∀ validDestinationTags : List ℕ, tagCheckFails (some 0) validDestinationTags = false) ∧
    (∀ (getTx : String → Option RawTx) (creators : List Creator) (db : List Tip)
        (tipId : ℕ) (txHash : String) (now : ℤ) (tip : Tip) (c : Creator) (vtx : VerifiedTx),
      findTipById db tipId = some tip →
      tip.status = .pending →
      tip.creator.bind (findCreatorById creators) = some c →
      verifyPayment getTx txHash c.xrpAddress (some tip.amount) = .valid vtx →
      vtx.destinationTag = some 0 →
      verifyAndConfirmTip getTx creators db tipId txHash now =
        .ok (updateFirstTip db (fun t => decide (t.id = tipId)) (confirmMarkTip vtx now),
          updateCreatorStats creators c.id
            (recomputeStats (updateFirstTip db (fun t => decide (t.id = tipId))
              (confirmMarkTip vtx now)) c),
          { success := true, message := "Tip confirmed successfully" })) := by
  refine ⟨?_, ?_, ?_, ?_⟩
  · intro data tx htx
    simp [mkPaymentFromTx, htx]
  · intro creators env now newId db p hp
    have hv : validTip (unassignedTip newId p none now) = false := by
      simp [validTip, unassignedTip]
    simp only [monitorHandler, hp]
    unfold saveTip
    rw [hv]
    simp
  · intro validDestinationTags
    simp [tagCheckFails]
  · intro getTx creators db tipId txHash now tip c vtx hfind hst hbind hverify hvtx
    have hnc : ¬(tip.status = .confirmed) := by
      rw [hst]
      decide
    simp only [verifyAndConfirmTip, hfind]
    rw [if_neg hnc, hbind]
    simp only [hverify]
    have htc : tagCheckFails vtx.destinationTag (getAllValidDestinationTags c) = false := by
      rw [hvtx]
      simp [tagCheckFails]
    rw [htc]
    simp

/-- Witness for `tag0_treated_as_absent`: the tag-0 subscription
payment, the tagless live payment, the tag list of the 777 beneficiary,
and the pending tip confirmed through a tag-0 ledger transaction. -/
theorem tag0_treated_as_absent_witness :
    (mkPaymentFromTx tag0TxData tag0Tx).destinationTag = none ∧
    monitorHandler [sampleCreator] richEnv 0 14 [] taglessPayment =
      ([], [sampleCreator], .processingError) ∧
    tagCheckFails (some 0) [777] = false ∧
    verifyAndConfirmTip tag0Ledger [sampleCreator] [samplePendingTip] 7 "VERIF0" 0 =
      .ok (updateFirstTip [samplePendingTip] (fun t => decide (t.id = 7))
          (confirmMarkTip tag0VerifiedTx 0),
        updateCreatorStats [sampleCreator] sampleCreator.id
          (recomputeStats (updateFirstTip [samplePendingTip] (fun t => decide (t.id = 7))
            (confirmMarkTip tag0VerifiedTx 0)) sampleCreator),
        { success := true, message := "Tip confirmed successfully" }) := by
  have h := tag0_treated_as_absent
  refine ⟨h.1 tag0TxData tag0Tx rfl, h.2.1 [sampleCreator] richEnv 0 14 [] taglessPayment rfl,
    h.2.2.1 [777], h.2.2.2 tag0Ledger [sampleCreator] [samplePendingTip] 7 "VERIF0" 0
      samplePendingTip sampleCreator tag0VerifiedTx rfl rfl rfl ?_ rfl⟩
  norm_num [verifyPayment, tag0Ledger, tag0LedgerTx, sampleCreator, samplePendingTip,
    tag0VerifiedTx, sampleCreatorAddress]

/-- Collected tags only grow along the history fold. -/
lemma mem_pushTag_of_mem {acc : List ℕ} {w : WalletEntry} {t : ℕ} (h : t ∈ acc) :
    t ∈ pushTag acc w := by
  unfold pushTag
  cases historicalTag w with
  | none => exact h
  | some x =>
      show t ∈ (if x ∈ acc then acc else acc ++ [x])
      by_cases hx : x ∈ acc
      · rw [if_pos hx]
        exact h
      · rw [if_neg hx]
        exact List.mem_append_left _ h

/-- Pushing an entry makes its own tag collected. -/
lemma mem_pushTag_self {acc : List ℕ} {w : WalletEntry} {t : ℕ}
    (h : historicalTag w = some t) : t ∈ pushTag acc w := by
  unfold pushTag
  rw [h]
  show t ∈ (if t ∈ acc then acc else acc ++ [t])
  by_cases ht : t ∈ acc
  · rw [if_pos ht]
    exact ht
  · rw [if_neg ht]
    exact List.mem_append_right _ (List.mem_singleton.mpr rfl)

/-- Tags already collected survive the whole history fold. -/
lemma mem_foldl_pushTag_of_mem (l : List WalletEntry) (init : List ℕ) (t : ℕ)
    (h : t ∈ init) : t ∈ l.foldl pushTag init := by
  induction l generalizing init with
  | nil => exact h
  | cons w ws ih => exact ih _ (mem_pushTag_of_mem h)

/-- Any history entry's tag ends up collected by the fold. -/
lemma mem_foldl_pushTag_of_exists (l : List WalletEntry) (init : List ℕ) (t : ℕ)
    (h : ∃ w ∈ l, historicalTag w = some t) : t ∈ l.foldl pushTag init := by
  induction l generalizing init with
  | nil =>
      obtain ⟨w, hw, _⟩ := h
      cases hw
  | cons w ws ih =>
      obtain ⟨v, hv, hvt⟩ := h
      rcases List.mem_cons.mp hv with rfl | hv'
      · exact mem_foldl_pushTag_of_mem ws (pushTag init v) t (mem_pushTag_self hvt)
      · exact ih _ ⟨v, hv', hvt⟩

/-- The `$elemMatch` history query matches exactly when some history
entry's classification-determined tag equals the searched tag. -/
lemma historyTagMatches_iff (tag : ℕ) (c : Creator) :
    historyTagMatches tag c = true ↔
      ∃ w ∈ c.walletHistory, historicalTag w = some tag := by
  unfold historyTagMatches
  rw [List.any_eq_true]
  constructor
  · rintro ⟨w, hw, hp⟩
    refine ⟨w, hw, ?_⟩
    simp only [Bool.or_eq_true, Bool.and_eq_true, decide_eq_true_eq] at hp
    unfold historicalTag
    rcases hp with ⟨h1, h2⟩ | ⟨h1, h2⟩ <;> rw [h2] <;> exact h1
  · rintro ⟨w, hw, ht⟩
    refine ⟨w, hw, ?_⟩
    simp only [Bool.or_eq_true, Bool.and_eq_true, decide_eq_true_eq]
    unfold historicalTag at ht
    cases hwt : w.walletType with
    | personal =>
        rw [hwt] at ht
        exact Or.inl ⟨ht, rfl⟩
    | exchange =>
        rw [hwt] at ht
        exact Or.inr ⟨ht, rfl⟩

/-- `findOne` on a predicate with a unique satisfying element. -/
lemma findFirst_unique {α : Type} {p : α → Bool} {l : List α} {a : α}
    (hmem : a ∈ l) (hpa : p a = true) (huniq : ∀ b ∈ l, p b = true → b = a) :
    l.find? p = some a := by
  induction l with
  | nil => cases hmem
  | cons x xs ih =>
      by_cases hx : p x = true
      · have hxa : x = a := huniq x (List.mem_cons_self x xs) hx
        rw [List.find?_cons_of_pos _ hx, hxa]
      · rcases List.mem_cons.mp hmem with rfl | hmem'
        · exact absurd hpa hx
        · rw [List.find?_cons_of_neg _ hx]
          exact ih hmem' (fun b hb hpb => huniq b (List.mem_cons_of_mem _ hb) hpb)

/-- The wallet-change hook records the old current tag in history. -/
lemma applyWalletChange_history_has_old_tag (old : Creator) (newAddress : String)
    (newType : WalletType) (newDestinationTag newUserDestinationTag : Option ℕ)
    (nowW : ℕ) (t : ℕ) (hold : getCurrentDestinationTag old = some t) :
    ∃ w ∈ (applyWalletChange old newAddress newType newDestinationTag
      newUserDestinationTag nowW).walletHistory, historicalTag w = some t := by
  refine ⟨{ xrpAddress := old.xrpAddress
            walletType := old.walletType
            destinationTag := old.destinationTag
            userDestinationTag := old.userDestinationTag
            activeFrom := old.updatedAt
            activeTo := some nowW }, ?_, ?_⟩
  · exact List.mem_append_right _ (List.mem_singleton.mpr rfl)
  · unfold historicalTag
    unfold getCurrentDestinationTag at hold
    cases hwt : old.walletType <;> rw [hwt] at hold <;> simpa using hold

/-- C7: after a wallet reassignment pushes the old assignment into
history, a payment bearing the old tag still resolves to the same
beneficiary (no other account claiming the tag), the old tag is in the
beneficiary's valid-tag set, and every confirmed tip recorded under the
old tag is part of the tip set the recomputed aggregate statistics range
over (whose counters are exactly the size and amount-sum of that
set). -/
theorem old_tag_resolves_after_reassignment (old : Creator) (newAddress : String)
    (newType : WalletType) (newDestinationTag newUserDestinationTag : Option ℕ)
    (nowW : ℕ) (creators : List Creator) (t : ℕ)
    (hold : getCurrentDestinationTag old = some t)
    (hmem : applyWalletChange old newAddress newType newDestinationTag
      newUserDestinationTag nowW ∈ creators)
    (hnocur : ∀ c ∈ creators, currentTagMatches t c = false)
    (huniq : ∀ c ∈ creators, historyTagMatches t c = true →
      c = applyWalletChange old newAddress newType newDestinationTag
        newUserDestinationTag nowW) :
    findCreatorByDestinationTag creators t =
      some (applyWalletChange old newAddress newType newDestinationTag
        newUserDestinationTag nowW) ∧
    t ∈ getAllValidDestinationTags (applyWalletChange old newAddress newType
      newDestinationTag newUserDestinationTag nowW) ∧
    (∀ (db : List Tip) (tip : Tip), tip ∈ db →
      tip.creator = some old.id →
      tip.destinationTag = some t →
      tip.status = .confirmed →
      tip ∈ tipsForStats db (applyWalletChange old newAddress newType
        newDestinationTag newUserDestinationTag nowW)) ∧
    (∀ db : List Tip,
      (recomputeStats db (applyWalletChange old newAddress newType
        newDestinationTag newUserDestinationTag nowW)).totalTips =
        (tipsForStats db (applyWalletChange old newAddress newType
          newDestinationTag newUserDestinationTag nowW)).length ∧
      (recomputeStats db (applyWalletChange old newAddress newType
        newDestinationTag newUserDestinationTag nowW)).totalAmount =
        (tipsForStats db (applyWalletChange old newAddress newType
          newDestinationTag newUserDestinationTag nowW)).foldl
          (fun sum u => sum + u.amount) 0) := by
  have hhist := applyWalletChange_history_has_old_tag old newAddress newType
    newDestinationTag newUserDestinationTag nowW t hold
  have htags : t ∈ getAllValidDestinationTags (applyWalletChange old newAddress newType
      newDestinationTag newUserDestinationTag nowW) := by
    unfold getAllValidDestinationTags
    exact mem_foldl_pushTag_of_exists _ _ _ hhist
  refine ⟨?_, htags, ?_, fun db => ⟨rfl, rfl⟩⟩
  · unfold findCreatorByDestinationTag
    rw [List.find?_eq_none.mpr (fun c hc => by simp [hnocur c hc])]
    exact findFirst_unique hmem ((historyTagMatches_iff t _).mpr hhist) huniq
  · intro db tip htmem htc htt hts
    refine List.mem_filter.mpr ⟨htmem, ?_⟩
    unfold tipCountsForStats
    rw [htt]
    simp only [Bool.and_eq_true, decide_eq_true_eq]
    exact ⟨⟨htc, by simpa using htags⟩, hts⟩

/-- Witness for `old_tag_resolves_after_reassignment`: the tag-777
beneficiary moved to tag 888; a tag-777 payment still resolves to it and
its confirmed tag-777 tip is counted by the recomputed stats. -/
theorem old_tag_resolves_after_reassignment_witness :
    findCreatorByDestinationTag [movedCreator] 777 = some movedCreator ∧
    777 ∈ getAllValidDestinationTags movedCreator ∧
    oldTagTip ∈ tipsForStats [oldTagTip] movedCreator ∧
    (recomputeStats [oldTagTip] movedCreator).totalTips = 1 := by
  have h := old_tag_resolves_after_reassignment sampleCreator "rNEWADDRESS"
    WalletType.personal (some 888) none 1 [movedCreator] 777 rfl
    (List.mem_singleton.mpr rfl)
    (by
      intro c hc
      rw [List.mem_singleton] at hc
      subst hc
      rfl)
    (by
      intro c hc _
      rw [List.mem_singleton] at hc
      exact hc)
  exact ⟨h.1, h.2.1,
    h.2.2.1 [oldTagTip] oldTagTip (List.mem_singleton.mpr rfl) rfl rfl rfl,
    (h.2.2.2 [oldTagTip]).1.trans rfl⟩

/-- Every element of an updated store is an old element or the update of
one. -/
lemma mem_updateFirstTip {db : List Tip} {q : Tip → Bool} {f : Tip → Tip} {t : Tip}
    (h : t ∈ updateFirstTip db q f) : t ∈ db ∨ ∃ u ∈ db, t = f u := by
  induction db with
  | nil => cases h
  | cons x rest ih =>
      unfold updateFirstTip at h
      by_cases hq : q x = true
      · rw [if_pos hq] at h
        rcases List.mem_cons.mp h with rfl | h'
        · exact Or.inr ⟨x, List.mem_cons_self x rest, rfl⟩
        · exact Or.inl (List.mem_cons_of_mem _ h')
      · rw [if_neg hq] at h
        rcases List.mem_cons.mp h with rfl | h'
        · exact Or.inl (List.mem_cons_self _ _)
        · rcases ih h' with h'' | ⟨u, hu, hfu⟩
          · exact Or.inl (List.mem_cons_of_mem _ h'')
          · exact Or.inr ⟨u, List.mem_cons_of_mem _ hu, hfu⟩

/-- A pointwise property preserved by the update holds on the updated
store. -/
lemma updateFirstTip_forall {db : List Tip} {q : Tip → Bool} {f : Tip → Tip}
    (P : Tip → Prop) (hdb : ∀ u ∈ db, P u) (hf : ∀ u ∈ db, P (f u)) :
    ∀ t ∈ updateFirstTip db q f, P t := by
  intro t ht
  rcases mem_updateFirstTip ht with h | ⟨u, hu, rfl⟩
  · exact hdb t h
  · exact hf u hu

/-- A confirmed stored tip survives an update whose target (the first
match of the query) is a pending tip. -/
lemma mem_updateFirstTip_of_confirmed {db : List Tip} {q : Tip → Bool} {f : Tip → Tip}
    {t ex : Tip} (hfind : db.find? q = some ex) (hex : ex.status = .pending)
    (ht : t ∈ db) (hts : t.status = .confirmed) :
    t ∈ updateFirstTip db q f := by
  induction db with
  | nil => cases ht
  | cons x rest ih =>
      unfold updateFirstTip
      by_cases hq : q x = true
      · rw [if_pos hq]
        rw [List.find?_cons_of_pos _ hq] at hfind
        cases hfind
        rcases List.mem_cons.mp ht with rfl | ht'
        · rw [hts] at hex
          cases hex
        · exact List.mem_cons_of_mem _ ht'
      · rw [if_neg hq]
        rw [List.find?_cons_of_neg _ hq] at hfind
        rcases List.mem_cons.mp ht with rfl | ht'
        · exact List.mem_cons_self _ _
        · exact List.mem_cons_of_mem _ (ih hfind ht')

/-- One sync-loop iteration never brings the number of tips stored under
any transaction hash above the maximum of its old value and one. -/
lemma syncStep_count_le (creator : Creator) (v : List ℕ) (now : ℤ) (s : SyncState)
    (e : TxData) (h : String) :
    countTipsWithHash (syncStep creator v now s e).tips h ≤
      max (countTipsWithHash s.tips h) 1 := by
  unfold syncStep
  cases htx : e.tx with
  | none => exact le_max_left _ _
  | some tx =>
      simp only []
      by_cases hq : isQualifyingTx creator tx = true
      · rw [if_neg (not_not_intro hq)]
        by_cases hw : isWrongTagEntry v tx = true
        · rw [if_pos hw]
          exact le_max_left _ _
        · rw [if_neg hw]
          cases hf : s.tips.find? (fun t => decide (t.transactionHash = some e.hash)) with
          | none =>
              simp only []
              cases hs : saveTip s.tips (backfilledTip s.nextId creator e tx) with
              | ok tips' =>
                  obtain ⟨_, hdup, rfl⟩ := saveTip_ok_some rfl hs
                  simp only []
                  rw [countTipsWithHash_append]
                  by_cases hh : (backfilledTip s.nextId creator e tx).transactionHash = some h
                  · rw [if_pos hh]
                    have : e.hash = h := by
                      have : some e.hash = some h := hh
                      injection this
                    subst this
                    rw [countTipsWithHash_eq_zero hdup]
                    exact le_max_right _ _
                  · rw [if_neg hh]
                    simp only [Nat.add_zero]
                    exact le_max_left _ _
              | error err =>
                  simp only []
                  exact le_max_left _ _
          | some existing =>
              simp only []
              by_cases hp : existing.status = .pending
              · rw [if_pos hp]
                by_cases hv : validTip (syncConfirmUpdate e now tx existing) = true
                · rw [if_pos hv]
                  simp only []
                  rw [countTipsWithHash_updateFirstTip _ _ _ ?hpres]
                  · exact le_max_left _ _
                  case hpres =>
                    intro u hqu
                    have hu : u.transactionHash = some e.hash := by
                      simpa using hqu
                    simp [syncConfirmUpdate, hu]
                · rw [if_neg hv]
                  exact le_max_left _ _
              · rw [if_neg hp]
                exact le_max_left _ _
      · rw [if_pos hq]
        exact le_max_left _ _

/-- One sync-loop iteration increments the wrong-tag counter exactly on
the entries `isSkippedWrongTag` describes, and only that counter field
of the counts is touched by a skip. -/
lemma syncStep_skipped (creator : Creator) (v : List ℕ) (now : ℤ) (s : SyncState)
    (e : TxData) :
    (syncStep creator v now s e).skippedWrongTag =
      s.skippedWrongTag + (if isSkippedWrongTag creator v e = true then 1 else 0) := by
  unfold syncStep isSkippedWrongTag
  cases htx : e.tx with
  | none => simp
  | some tx =>
      simp only []
      by_cases hq : isQualifyingTx creator tx = true
      · rw [if_neg (not_not_intro hq)]
        by_cases hw : isWrongTagEntry v tx = true
        · rw [if_pos hw]
          simp [hq, hw]
        · rw [if_neg hw]
          cases hf : s.tips.find? (fun t => decide (t.transactionHash = some e.hash)) with
          | none =>
              simp only []
              cases hs : saveTip s.tips (backfilledTip s.nextId creator e tx) with
              | ok tips' => simp [hq, hw]
              | error err => simp [hq, hw]
          | some existing =>
              simp only []
              by_cases hp : existing.status = .pending
              · rw [if_pos hp]
                by_cases hv : validTip (syncConfirmUpdate e now tx existing) = true
                · rw [if_pos hv]
                  simp [hq, hw]
                · rw [if_neg hv]
                  simp [hq, hw]
              · rw [if_neg hp]
                simp [hq, hw]
      · rw [if_pos hq]
        simp [hq]

/-- The per-hash dedup bound composes over a whole history page. -/
lemma syncFold_count_le (creator : Creator) (v : List ℕ) (now : ℤ)
    (l : List TxData) (s : SyncState) (h : String) :
    countTipsWithHash (l.foldl (syncStep creator v now) s).tips h ≤
      max (countTipsWithHash s.tips h) 1 := by
  induction l generalizing s with
  | nil => exact le_max_left _ _
  | cons e rest ih =>
      have h1 := ih (syncStep creator v now s e)
      have h2 := syncStep_count_le creator v now s e h
      simp only [List.foldl_cons]
      omega

/-- The wrong-tag counter over a page counts exactly the
`isSkippedWrongTag` entries. -/
lemma syncFold_skipped (creator : Creator) (v : List ℕ) (now : ℤ)
    (l : List TxData) (s : SyncState) :
    (l.foldl (syncStep creator v now) s).skippedWrongTag =
      s.skippedWrongTag + (l.filter (isSkippedWrongTag creator v)).length := by
  induction l generalizing s with
  | nil => simp
  | cons e rest ih =>
      rw [List.foldl_cons, ih, syncStep_skipped]
      by_cases he : isSkippedWrongTag creator v e = true
      · simp only [List.filter_cons, he, if_true, List.length_cons]
        omega
      · simp only [List.filter_cons, he, if_false, Bool.false_eq_true]
        omega

/-- C6: over one transaction-history page the Historical Reconciler
never stores a second Tip under a transaction hash that is already
represented (per hash, the stored count never exceeds the maximum of its
old value and one); qualifying entries whose tag lies outside the
account's valid tag set are skipped and counted; and the returned counts
report newly recorded, updated-from-pending, skipped-wrong-tag and
total-scanned, the latter being the full page length. -/
theorem syncCreatorTransactions_dedup_and_counts (creator : Creator)
    (transactions : List TxData) (db : List Tip) (now : ℤ) (startId : ℕ) :
    (∀ h : String,
      countTipsWithHash
          (syncCreatorTransactions creator transactions db now startId).tips h ≤
        max (countTipsWithHash db h) 1) ∧
    (syncCreatorTransactions creator transactions db now startId).counts.skippedWrongTag =
      (transactions.filter
        (isSkippedWrongTag creator (getAllValidDestinationTags creator))).length ∧
    (syncCreatorTransactions creator transactions db now startId).counts.totalProcessed =
      transactions.length := by
  refine ⟨?_, ?_, rfl⟩
  · intro h
    exact syncFold_count_le creator (getAllValidDestinationTags creator) now transactions
      { tips := db, newTips := 0, updatedTips := 0, skippedWrongTag := 0, nextId := startId } h
  · exact (syncFold_skipped creator (getAllValidDestinationTags creator) now transactions
      { tips := db, newTips := 0, updatedTips := 0, skippedWrongTag := 0,
        nextId := startId }).trans (Nat.zero_add _)

/-- One sync-loop iteration keeps every already-confirmed stored tip. -/
lemma syncStep_preserves_confirmed (creator : Creator) (v : List ℕ) (now : ℤ)
    (s : SyncState) (e : TxData) {t : Tip} (ht : t ∈ s.tips)
    (hts : t.status = .confirmed) :
    t ∈ (syncStep creator v now s e).tips := by
  unfold syncStep
  cases htx : e.tx with
  | none => exact ht
  | some tx =>
      simp only []
      by_cases hq : isQualifyingTx creator tx = true
      · rw [if_neg (not_not_intro hq)]
        by_cases hw : isWrongTagEntry v tx = true
        · rw [if_pos hw]
          exact ht
        · rw [if_neg hw]
          cases hf : s.tips.find? (fun u => decide (u.transactionHash = some e.hash)) with
          | none =>
              simp only []
              cases hs : saveTip s.tips (backfilledTip s.nextId creator e tx) with
              | ok tips' =>
                  obtain ⟨_, _, rfl⟩ := saveTip_ok_some rfl hs
                  exact List.mem_append_left _ ht
              | error err => exact ht
          | some existing =>
              simp only []
              by_cases hp : existing.status = .pending
              · rw [if_pos hp]
                by_cases hv : validTip (syncConfirmUpdate e now tx existing) = true
                · rw [if_pos hv]
                  exact mem_updateFirstTip_of_confirmed hf hp ht hts
                · rw [if_neg hv]
                  exact ht
              · rw [if_neg hp]
                exact ht
      · rw [if_pos hq]
        exact ht

/-- Confirmed tips survive a whole history page. -/
lemma syncFold_preserves_confirmed (creator : Creator) (v : List ℕ) (now : ℤ)
    (l : List TxData) (s : SyncState) {t : Tip} (ht : t ∈ s.tips)
    (hts : t.status = .confirmed) :
    t ∈ (l.foldl (syncStep creator v now) s).tips := by
  induction l generalizing s with
  | nil => exact ht
  | cons e rest ih =>
      rw [List.foldl_cons]
      exact ih _ (syncStep_preserves_confirmed creator v now s e ht hts)

/-- One sync-loop iteration introduces no tip under a hash that differs
from the processed entry's hash. -/
lemma syncStep_fresh (creator : Creator) (v : List ℕ) (now : ℤ) (s : SyncState)
    (e : TxData) (h : String)
    (hs : s.tips.any (fun u => decide (u.transactionHash = some h)) = false)
    (hne : e.hash ≠ h) :
    (syncStep creator v now s e).tips.any
      (fun u => decide (u.transactionHash = some h)) = false := by
  unfold syncStep
  cases htx : e.tx with
  | none => exact hs
  | some tx =>
      simp only []
      by_cases hq : isQualifyingTx creator tx = true
      · rw [if_neg (not_not_intro hq)]
        by_cases hw : isWrongTagEntry v tx = true
        · rw [if_pos hw]
          exact hs
        · rw [if_neg hw]
          cases hf : s.tips.find? (fun u => decide (u.transactionHash = some e.hash)) with
          | none =>
              simp only []
              cases hsave : saveTip s.tips (backfilledTip s.nextId creator e tx) with
              | ok tips' =>
                  obtain ⟨_, _, rfl⟩ := saveTip_ok_some rfl hsave
                  rw [List.any_append]
                  simp only [hs, Bool.false_or, List.any_cons, List.any_nil, Bool.or_false]
                  simpa [backfilledTip] using hne
              | error err => exact hs
          | some existing =>
              simp only []
              by_cases hp : existing.status = .pending
              · rw [if_pos hp]
                by_cases hv : validTip (syncConfirmUpdate e now tx existing) = true
                · rw [if_pos hv]
                  rw [List.any_eq_false]
                  refine updateFirstTip_forall _ (fun u hu => ?_) (fun u hu => ?_)
                  · exact List.any_eq_false.mp hs u hu
                  · simp [syncConfirmUpdate, hne]
                · rw [if_neg hv]
                  exact hs
              · rw [if_neg hp]
                exact hs
      · rw [if_pos hq]
        exact hs

/-- Freshness of a hash survives a page none of whose entries carry
it. -/
lemma syncFold_fresh (creator : Creator) (v : List ℕ) (now : ℤ)
    (l : List TxData) (s : SyncState) (h : String)
    (hs : s.tips.any (fun u => decide (u.transactionHash = some h)) = false)
    (hl : ∀ e ∈ l, e.hash ≠ h) :
    (l.foldl (syncStep creator v now) s).tips.any
      (fun u => decide (u.transactionHash = some h)) = false := by
  induction l generalizing s with
  | nil => exact hs
  | cons e rest ih =>
      rw [List.foldl_cons]
      exact ih _ (syncStep_fresh creator v now s e h hs (hl e (List.mem_cons_self e rest)))
        (fun e' he' => hl e' (List.mem_cons_of_mem _ he'))

/-- `RedistPreserved` is reflexive. -/
lemma redistPreserved_refl (db : List Tip) : RedistPreserved db db :=
  fun t ht => Or.inr ⟨t, ht, rfl, rfl⟩

/-- `RedistPreserved` composes. -/
lemma redistPreserved_trans {db0 db1 db2 : List Tip}
    (h01 : RedistPreserved db0 db1) (h12 : RedistPreserved db1 db2) :
    RedistPreserved db0 db2 := by
  intro t ht
  rcases h12 t ht with h | ⟨u, hu, hr, hh⟩
  · exact Or.inl h
  · rcases h01 u hu with ⟨hur, huh⟩ | ⟨w, hw, hwr, hwh⟩
    · exact Or.inl ⟨hr.trans hur, hh.trans huh⟩
    · exact Or.inr ⟨w, hw, hr.trans hwr, hh.trans hwh⟩

/-- One sync-loop iteration performs no redistribution: every stored tip
keeps its redistribution fields (new tips carry the defaults). -/
lemma syncStep_redistPreserved (creator : Creator) (v : List ℕ) (now : ℤ)
    (s : SyncState) (e : TxData) :
    RedistPreserved s.tips (syncStep creator v now s e).tips := by
  unfold syncStep
  cases htx : e.tx with
  | none => exact redistPreserved_refl _
  | some tx =>
      simp only []
      by_cases hq : isQualifyingTx creator tx = true
      · rw [if_neg (not_not_intro hq)]
        by_cases hw : isWrongTagEntry v tx = true
        · rw [if_pos hw]
          exact redistPreserved_refl _
        · rw [if_neg hw]
          cases hf : s.tips.find? (fun u => decide (u.transactionHash = some e.hash)) with
          | none =>
              simp only []
              cases hsave : saveTip s.tips (backfilledTip s.nextId creator e tx) with
              | ok tips' =>
                  obtain ⟨_, _, rfl⟩ := saveTip_ok_some rfl hsave
                  intro t ht
                  rcases List.mem_append.mp ht with ht' | ht'
                  · exact Or.inr ⟨t, ht', rfl, rfl⟩
                  · rw [List.mem_singleton.mp ht']
                    exact Or.inl ⟨rfl, rfl⟩
              | error err => exact redistPreserved_refl _
          | some existing =>
              simp only []
              by_cases hp : existing.status = .pending
              · rw [if_pos hp]
                by_cases hv : validTip (syncConfirmUpdate e now tx existing) = true
                · rw [if_pos hv]
                  intro t ht
                  rcases mem_updateFirstTip ht with ht' | ⟨u, hu, rfl⟩
                  · exact Or.inr ⟨t, ht', rfl, rfl⟩
                  · exact Or.inr ⟨u, hu, rfl, rfl⟩
                · rw [if_neg hv]
                  exact redistPreserved_refl _
              · rw [if_neg hp]
                exact redistPreserved_refl _
      · rw [if_pos hq]
        exact redistPreserved_refl _

/-- No redistribution occurs across a whole history page. -/
lemma syncFold_redistPreserved (creator : Creator) (v : List ℕ) (now : ℤ)
    (l : List TxData) (s : SyncState) :
    RedistPreserved s.tips (l.foldl (syncStep creator v now) s).tips := by
  induction l generalizing s with
  | nil => exact redistPreserved_refl _
  | cons e rest ih =>
      rw [List.foldl_cons]
      exact redistPreserved_trans (syncStep_redistPreserved creator v now s e)
        (ih (syncStep creator v now s e))

/-- The sync loop on a qualifying, right-tagged, not-yet-represented
entry appends the backfilled tip. -/
lemma syncStep_inserts (creator : Creator) (v : List ℕ) (now : ℤ) (s : SyncState)
    (e : TxData) (tx : RawTx)
    (hetx : e.tx = some tx)
    (hqual : isQualifyingTx creator tx = true)
    (htag : isWrongTagEntry v tx = false)
    (hfresh : s.tips.any (fun u => decide (u.transactionHash = some e.hash)) = false)
    (hvalid : validTip (backfilledTip s.nextId creator e tx) = true) :
    (syncStep creator v now s e).tips = s.tips ++ [backfilledTip s.nextId creator e tx] := by
  unfold syncStep
  rw [hetx]
  simp only []
  rw [if_neg (not_not_intro hqual), if_neg (by simp [htag])]
  rw [List.find?_eq_none.mpr (List.any_eq_false.mp hfresh)]
  simp only []
  rw [saveTip_ok_of rfl hvalid hfresh]

/-- C5: the claim fails on the code: backfilling the 10.5 XRP history
entry persists a confirmed Tip carrying the full 10.5 XRP with
platformFee 0, while the §4.1 split of 10.5 is (10, 0.5) — the
Historical Reconciler computes no fee split. -/
theorem sync_backfill_has_no_fee_split :
    (syncCreatorTransactions sampleCreator [syncTxData1] [] 0 30).tips =
      [backfilledTip 30 sampleCreator syncTxData1 syncTx1] ∧
    (backfilledTip 30 sampleCreator syncTxData1 syncTx1).status = .confirmed ∧
    (backfilledTip 30 sampleCreator syncTxData1 syncTx1).platformFee = 0 ∧
    (backfilledTip 30 sampleCreator syncTxData1 syncTx1).amount = 21/2 ∧
    (calculateBackendFees (21/2)).creatorAmount = 10 ∧
    (calculateBackendFees (21/2)).platformFee = 1/2 ∧
    (0 : ℚ) ≠ 1/2 := by
  have halice : ¬("alice" = "") := by decide
  have hva : validTip (backfilledTip 30 sampleCreator syncTxData1 syncTx1) = true := by
    norm_num [validTip, backfilledTip, deliveredDrops, syncTx1, syncTxData1, sampleCreator,
      halice]
  refine ⟨?_, rfl, rfl, ?_, ?_, ?_, by norm_num⟩
  · show (List.foldl (syncStep sampleCreator (getAllValidDestinationTags sampleCreator) 0)
      { tips := [], newTips := 0, updatedTips := 0, skippedWrongTag := 0, nextId := 30 }
      [syncTxData1]).tips = [backfilledTip 30 sampleCreator syncTxData1 syncTx1]
    rw [List.foldl_cons, List.foldl_nil]
    rw [syncStep_inserts sampleCreator (getAllValidDestinationTags sampleCreator) 0
      { tips := [], newTips := 0, updatedTips := 0, skippedWrongTag := 0, nextId := 30 }
      syncTxData1 syncTx1 rfl rfl rfl rfl hva]
    rfl
  · norm_num [backfilledTip, deliveredDrops, syncTx1]
  · norm_num [calculateBackendFees, feesConfig, roundTo2, jsRound]
  · norm_num [calculateBackendFees, feesConfig, roundTo2, jsRound]

/-- C5 (amended): for every qualifying history entry not already
represented by a Tip, the Historical Reconciler persists a `confirmed`
Tip referencing the beneficiary that carries the full delivered amount
with no fee split (platformFee 0, creatorAmount unset), and it never
invokes the Redistribution Executor for any entry: all redistribution
fields across the store are either defaults or carried over unchanged. -/
theorem sync_backfill_no_split_no_redistribution (creator : Creator)
    (pre post : List TxData) (e : TxData) (tx : RawTx) (db : List Tip)
    (now : ℤ) (startId : ℕ)
    (hetx : e.tx = some tx)
    (hqual : isQualifyingTx creator tx = true)
    (htag : isWrongTagEntry (getAllValidDestinationTags creator) tx = false)
    (hnodup : ∀ e' ∈ pre, e'.hash ≠ e.hash)
    (hfresh : db.any (fun u => decide (u.transactionHash = some e.hash)) = false)
    (hvalid : ∀ i : ℕ, validTip (backfilledTip i creator e tx) = true) :
    (∃ t ∈ (syncCreatorTransactions creator (pre ++ e :: post) db now startId).tips,
      t.transactionHash = some e.hash ∧ t.status = .confirmed ∧
      t.creator = some creator.id ∧ t.creatorUsername = creator.username ∧
      t.amount = deliveredDrops tx / 1000000 ∧ t.platformFee = 0 ∧
      t.creatorAmount = none ∧ t.redistributed = false ∧
      t.redistributionTxHash = none) ∧
    RedistPreserved db (syncCreatorTransactions creator (pre ++ e :: post) db now startId).tips := by
  constructor
  · show ∃ t ∈ (List.foldl (syncStep creator (getAllValidDestinationTags creator) now)
      { tips := db, newTips := 0, updatedTips := 0, skippedWrongTag := 0, nextId := startId }
      (pre ++ e :: post)).tips, _
    rw [List.foldl_append, List.foldl_cons]
    have hfresh1 : ((List.foldl (syncStep creator (getAllValidDestinationTags creator) now)
        { tips := db, newTips := 0, updatedTips := 0, skippedWrongTag := 0,
          nextId := startId } pre).tips).any
        (fun u => decide (u.transactionHash = some e.hash)) = false :=
      syncFold_fresh creator (getAllValidDestinationTags creator) now pre _ e.hash hfresh hnodup
    set s1 := List.foldl (syncStep creator (getAllValidDestinationTags creator) now)
      { tips := db, newTips := 0, updatedTips := 0, skippedWrongTag := 0,
        nextId := startId } pre with hs1
    have hstep := syncStep_inserts creator (getAllValidDestinationTags creator) now s1 e tx
      hetx hqual htag hfresh1 (hvalid s1.nextId)
    refine ⟨backfilledTip s1.nextId creator e tx, ?_, rfl, rfl, rfl, rfl, rfl, rfl, rfl, rfl, rfl⟩
    apply syncFold_preserves_confirmed creator (getAllValidDestinationTags creator) now post
      (syncStep creator (getAllValidDestinationTags creator) now s1 e) ?_ rfl
    rw [hstep]
    exact List.mem_append_right _ (List.mem_singleton.mpr rfl)
  · exact syncFold_redistPreserved creator (getAllValidDestinationTags creator) now
      (pre ++ e :: post) _

/-- Witness for `sync_backfill_no_split_no_redistribution`: the lone
10.5 XRP entry backfilled into an empty store. -/
theorem sync_backfill_no_split_no_redistribution_witness :
    (∃ t ∈ (syncCreatorTransactions sampleCreator ([] ++ syncTxData1 :: []) [] 0 31).tips,
      t.transactionHash = some syncTxData1.hash ∧ t.status = .confirmed ∧
      t.creator = some sampleCreator.id ∧ t.creatorUsername = sampleCreator.username ∧
      t.amount = deliveredDrops syncTx1 / 1000000 ∧ t.platformFee = 0 ∧
      t.creatorAmount = none ∧ t.redistributed = false ∧
      t.redistributionTxHash = none) ∧
    RedistPreserved []
      (syncCreatorTransactions sampleCreator ([] ++ syncTxData1 :: []) [] 0 31).tips := by
  have halice : ¬("alice" = "") := by decide
  exact sync_backfill_no_split_no_redistribution sampleCreator [] [] syncTxData1 syncTx1 [] 0 31
    rfl rfl rfl (fun e' he' => absurd he' (List.not_mem_nil e')) rfl
    (fun i => by
      norm_num [validTip, backfilledTip, deliveredDrops, syncTx1, syncTxData1, sampleCreator,
        halice])

end XrpTip
